import Mathlib

/-!
Verification development for the `lab-mongodb-python-assignment` repository:
a MongoDB data-modeling benchmark with three physical layouts (M1 normalized
with references, M2 person-embeds-company, M3 company-embeds-persons), each
providing `data_generator` and queries `query_q1` .. `query_q4`.

The Python classes `Model1`, `Model2`, `Model3` (files `model1.py`,
`model2.py`, `model3.py`) are embedded shallowly below:

* The external Fixture Generator (Faker) is modelled as an abstract stream
  `Fixture` of company/person field values, indexed by generation order.
* MongoDB collections are lists of typed documents; the generated ObjectId of
  the k-th inserted company in M1 is modelled as the index `k` (opaque,
  distinct identities, exactly what the code relies on).
* Python `//` and `%` and list indexing are modelled by `pydiv`, `pymod`,
  `pyIndex`, which raise (`Except.error`) on zero divisors / bad indexes,
  matching Python's `ZeroDivisionError` / `IndexError`.
* The per-iteration `insert_one` + conditional `print` loop bodies of the
  loaders are modelled by `genLoop`, which threads the accumulated collection
  and the accumulated console output, and aborts on the first raised error
  (Python exception semantics: the rest of the loop is skipped).
* Aggregation pipelines / `find` projections are embedded as the list
  transformations they denote; result rows are generic key/value documents
  (`Doc`), so the projected field names are part of the model.
* `update_many` returns `matched_count` (documents satisfying the filter) and
  `modified_count` (matched documents whose content actually changed -
  MongoDB does not count an update that leaves the document byte-identical,
  e.g. `$set` of an already-present value, as a modification).
* Wall-clock timing lines are not modelled (real time); the suppressible
  outputs (per-document progress, result previews, matched/modified report)
  are modelled, since the `only_timing` flag is specified to gate exactly
  those.
* Connection open/close around each operation is modelled separately
  (`OpStep`/`runConnSteps`) as the literal straight-line step sequence of each
  method body (`MongoClient(...)`, store calls, `client.close()`), with a
  failure oracle for the store calls; the Python methods have no
  `try`/`finally` or `with`, so a raised store error skips the remaining
  steps.
-/

namespace MongoLab

/-- Python runtime errors raised by the loaders' arithmetic / list indexing. -/
inductive PyErr where
  | zeroDivision
  | indexError
deriving DecidableEq

/-- Python `a // b` on non-negative ints: raises `ZeroDivisionError` on `b = 0`. -/
def pydiv (a b : Nat) : Except PyErr Nat :=
  if b = 0 then .error .zeroDivision else .ok (a / b)

/-- Python `a % b` on non-negative ints: raises `ZeroDivisionError` on `b = 0`. -/
def pymod (a b : Nat) : Except PyErr Nat :=
  if b = 0 then .error .zeroDivision else .ok (a % b)

/-- Python `l[i]` for `i` in range, `IndexError` otherwise. -/
def pyIndex {α : Type} (l : List α) (i : Nat) : Except PyErr α :=
  match l[i]? with
  | some a => .ok a
  | none => .error .indexError

/-- Company field values as produced by the fixture generator and stored
(fields of the company documents in `model1.py`/`model2.py`/`model3.py`). -/
structure Company where
  domain : String
  email : String
  name : String
  url : String
  vatNumber : String
deriving DecidableEq

/-- Person field values produced by the fixture generator: the sampled birth
date (its year, and its `YYYY-MM-DD` rendering) and the scalar fields. -/
structure FakePerson where
  birthYear : Int
  dateOfBirth : String
  companyEmail : String
  firstName : String
  lastName : String
  sex : String
deriving DecidableEq

/-- The external fixture generator (Faker), as abstract streams indexed by
generation order: `companyAt k` is the k-th generated company value,
`personAt i` the i-th generated person value. -/
structure Fixture where
  companyAt : Nat → Company
  personAt : Nat → FakePerson

/-- Person document of the M1 `m1_persons` collection: scalar fields plus the
referenced company's ObjectId. -/
structure M1Person where
  age : Int
  companyEmail : String
  dateOfBirth : String
  firstName : String
  lastName : String
  sex : String
  company : Nat
deriving DecidableEq

/-- M1 database state: `m1_companies` (ObjectId paired with the document) and
`m1_persons`. -/
structure M1DB where
  companies : List (Nat × Company)
  persons : List M1Person
deriving DecidableEq

/-- Person document of the M2 `m2_persons` collection, with the embedded
company copy. -/
structure M2Person where
  age : Int
  companyEmail : String
  dateOfBirth : String
  firstName : String
  lastName : String
  sex : String
  company : Company
deriving DecidableEq

/-- M2 database state: the single `m2_persons` collection. -/
structure M2DB where
  persons : List M2Person
deriving DecidableEq

/-- Embedded person sub-document of M3 (no company reference). -/
structure M3Person where
  age : Int
  companyEmail : String
  dateOfBirth : String
  firstName : String
  lastName : String
  sex : String
deriving DecidableEq

/-- Company document of the M3 `m3_companies` collection with its embedded
`persons` staff array. -/
structure M3Company where
  domain : String
  email : String
  name : String
  url : String
  vatNumber : String
  persons : List M3Person
deriving DecidableEq

/-- M3 database state: the single `m3_companies` collection. -/
structure M3DB where
  companies : List M3Company
deriving DecidableEq

/-- BSON-ish values for query result rows (only the shapes these pipelines
produce). -/
inductive Val where
  | str (s : String)
  | int (n : Int)
  | oid (n : Nat)
  | doc (fields : List (String × Val))

/-- A result document: ordered field-name/value pairs. -/
def Doc : Type := List (String × Val)

/-- The field names of a result document. -/
def docKeys (d : Doc) : List String := d.map Prod.fst

/-- Result of a read query: the full result set, plus the rows actually
printed (the code prints `results[:10]` unless `only_timing`). -/
structure ReadOut where
  rows : List Doc
  printed : List Doc

/-- Result of an `update_many` query: the new database state, the
matched/modified counts, and the printed report lines (suppressed by
`only_timing`). -/
structure WriteOut (σ : Type) where
  db : σ
  matched : Nat
  modified : Nat
  printed : List String

/-- Result of a loader run: the database state it wrote and the progress
lines it printed. -/
structure GenOut (σ : Type) where
  db : σ
  out : List String

/-- The loaders' person-insertion loop: for each index, compute the person
document (which may raise, e.g. `i % 0`), append it to the collection and
append the progress message; a raised error aborts the loop (Python
exception). -/
def genLoop {β γ : Type} (g : Nat → Except PyErr β) (m : Nat → List γ) :
    List Nat → List β × List γ → Except PyErr (List β × List γ)
  | [], acc => .ok acc
  | i :: rest, acc =>
    match g i with
    | .error e => .error e
    | .ok p => genLoop g m rest (acc.1 ++ [p], acc.2 ++ m i)

/-- The date literal of Q3's predicate. -/
def q3Cutoff : String := "1988-01-01"

/-- Strict lexicographic order on character lists (by code point). -/
def charListLt : List Char → List Char → Bool
  | [], [] => false
  | [], _ :: _ => true
  | _ :: _, [] => false
  | c :: cs, d :: ds => decide (c < d) || (c == d && charListLt cs ds)

/-- Python's `<` on strings (also MongoDB's `$lt` on these ASCII date
strings): lexicographic comparison by code point. -/
def pyStrLt (a b : String) : Bool := charListLt a.toList b.toList

/-- Lower-cased character list of a string (for the case-insensitive regex
match of Q4). -/
def lowerChars (s : String) : List Char := s.toList.map Char.toLower

/-- Does `pat` occur as a prefix of `l`? -/
def listStarts : List Char → List Char → Bool
  | _, [] => true
  | [], _ :: _ => false
  | c :: cs, d :: ds => c == d && listStarts cs ds

/-- Does `pat` occur as a contiguous sublist of `l`? -/
def listHasSub : List Char → List Char → Bool
  | [], pat => pat.isEmpty
  | c :: cs, pat => listStarts (c :: cs) pat || listHasSub cs pat

/-- Case-insensitive substring search: the semantics of the Q4 filter
`{"$regex": "Company", "$options": "i"}` (a plain-text pattern). -/
def containsCI (h pat : String) : Bool := listHasSub (lowerChars h) (lowerChars pat)

/-! ## Model 1 (`model1.py`): normalized, two collections -/

/-- Build the person document inserted by `Model1.data_generator` for fixture
person `fp` referencing company ObjectId `cid` (age is `2025 - birth year`). -/
def mkM1Person (fp : FakePerson) (cid : Nat) : M1Person :=
  { age := 2025 - fp.birthYear
    companyEmail := fp.companyEmail
    dateOfBirth := fp.dateOfBirth
    firstName := fp.firstName
    lastName := fp.lastName
    sex := fp.sex
    company := cid }

/-- One iteration of the M1 person loop: `company_ids[i % n_companies]`
then the document to insert. -/
def m1PersonStep (fake : Fixture) (company_ids : List Nat) (n_companies : Nat)
    (i : Nat) : Except PyErr M1Person := do
  let idx ← pymod i n_companies
  let cid ← pyIndex company_ids idx
  pure (mkM1Person (fake.personAt i) cid)

/-- `Model1.data_generator(n, only_timing)` (model1.py:40-102): drops and
recreates both collections (so the result does not depend on prior state),
inserts `n // 500` companies (ObjectIds modelled as insertion indexes), then
`n - n_companies` persons, each referencing `company_ids[i % n_companies]`,
printing a progress line per person unless `only_timing`. -/
def Model1.data_generator (n : Nat) (fake : Fixture) (only_timing : Bool) :
    Except PyErr (GenOut M1DB) :=
  let n_companies := n / 500
  let companies := (List.range n_companies).map (fun k => (k, fake.companyAt k))
  let company_ids := List.range n_companies
  let n_persons := n - n_companies
  (genLoop (m1PersonStep fake company_ids n_companies)
      (fun i => if only_timing then []
        else [toString (i + 1 + n_companies) ++ ". Document inserted"])
      (List.range n_persons) ([], [])).map
    (fun acc => { db := { companies := companies, persons := acc.1 }, out := acc.2 })

/-- `Model1.query_q1` (model1.py:107-155): `$lookup` of `m1_companies` on
`company = _id`, `$unwind` (one row per matched company), `$project`
`{_id:0, firstName, lastName, companyName: company_info.name}`. -/
def Model1.query_q1 (db : M1DB) (only_timing : Bool) : ReadOut :=
  let rows := db.persons.flatMap (fun p =>
    (db.companies.filter (fun c => c.1 == p.company)).map (fun c =>
      [("firstName", Val.str p.firstName), ("lastName", Val.str p.lastName),
       ("companyName", Val.str c.2.name)]))
  { rows := rows, printed := if only_timing then [] else rows.take 10 }

/-- `Model1.query_q2` (model1.py:222-260): reverse `$lookup` from
`m1_companies` into `m1_persons` on `_id = company`, then `$project`
`{_id:0, companyName: name, employeeCount: $size employees}` - one row per
company, zero-employee companies included. -/
def Model1.query_q2 (db : M1DB) (only_timing : Bool) : ReadOut :=
  let rows := db.companies.map (fun c =>
    [("companyName", Val.str c.2.name),
     ("employeeCount",
      Val.int ((db.persons.filter (fun p => p.company == c.1)).length : Nat))])
  { rows := rows, printed := if only_timing then [] else rows.take 10 }

/-- The M1/M2 Q3 match predicate `{dateOfBirth: {$lt: "1988-01-01"}}`
(lexicographic string comparison). -/
def m1Qual (p : M1Person) : Bool := pyStrLt p.dateOfBirth q3Cutoff

/-- The document `Model1.query_q3` writes for a matched person. -/
def m1SetAge30 (p : M1Person) : M1Person := { p with age := 30 }

/-- `Model1.query_q3` (model1.py:265-287): `update_many` setting `age` to 30
for persons with `dateOfBirth < "1988-01-01"`; reports matched and modified
counts (modified = matched documents whose content actually changed). -/
def Model1.query_q3 (db : M1DB) (only_timing : Bool) : WriteOut M1DB :=
  let matched := (db.persons.filter m1Qual).length
  let modified := (db.persons.filter (fun p => m1Qual p && decide (m1SetAge30 p ≠ p))).length
  let persons2 := db.persons.map (fun p => if m1Qual p then m1SetAge30 p else p)
  { db := { db with persons := persons2 }
    matched := matched
    modified := modified
    printed := if only_timing then []
      else ["Matched " ++ toString matched ++ " documents, Modified "
            ++ toString modified ++ " documents."] }

/-- The Q4 match predicate: company name does NOT contain "Company"
case-insensitively (`$not` of the `$regex`). -/
def q4Match (name : String) : Bool := !(containsCI name "Company")

/-- The Q4 rewrite: `{$set: {name: {$concat: ["$name", " Company"]}}}`. -/
def q4NewName (name : String) : String := name ++ " Company"

/-- `Model1.query_q4` (model1.py:292-324): `update_many` over `m1_companies`
appending " Company" to names not already containing "Company"
(case-insensitive); reports matched/modified counts. -/
def Model1.query_q4 (db : M1DB) (only_timing : Bool) : WriteOut M1DB :=
  let matched := (db.companies.filter (fun c => q4Match c.2.name)).length
  let modified := (db.companies.filter (fun c =>
    q4Match c.2.name && decide ({ c.2 with name := q4NewName c.2.name } ≠ c.2))).length
  let companies2 := db.companies.map (fun c =>
    if q4Match c.2.name then (c.1, { c.2 with name := q4NewName c.2.name }) else c)
  { db := { db with companies := companies2 }
    matched := matched
    modified := modified
    printed := if only_timing then []
      else ["Matched " ++ toString matched ++ " documents, Modified "
            ++ toString modified ++ " documents."] }

/-! ## Model 2 (`model2.py`): person documents with embedded company -/

/-- Build the person document inserted by `Model2.data_generator` embedding a
copy of company value `c`. -/
def mkM2Person (fp : FakePerson) (c : Company) : M2Person :=
  { age := 2025 - fp.birthYear
    companyEmail := fp.companyEmail
    dateOfBirth := fp.dateOfBirth
    firstName := fp.firstName
    lastName := fp.lastName
    sex := fp.sex
    company := c }

/-- One iteration of the M2 person loop: `companies[i % n_companies]` then
the document to insert. -/
def m2PersonStep (fake : Fixture) (companies : List Company) (n_companies : Nat)
    (i : Nat) : Except PyErr M2Person := do
  let idx ← pymod i n_companies
  let c ← pyIndex companies idx
  pure (mkM2Person (fake.personAt i) c)

/-- `Model2.data_generator(n, only_timing)` (model2.py:41-89): drops
`m2_persons`, pre-generates `n // 500` company values in memory, then inserts
`n - n_companies` persons each embedding `companies[i % n_companies]`,
printing a progress line per person unless `only_timing`. -/
def Model2.data_generator (n : Nat) (fake : Fixture) (only_timing : Bool) :
    Except PyErr (GenOut M2DB) :=
  let n_companies := n / 500
  let companies := (List.range n_companies).map fake.companyAt
  let n_persons := n - n_companies
  (genLoop (m2PersonStep fake companies n_companies)
      (fun i => if only_timing then [] else [toString (i + 1) ++ ". Person inserted"])
      (List.range n_persons) ([], [])).map
    (fun acc => { db := { persons := acc.1 }, out := acc.2 })

/-- `Model2.query_q1` (model2.py:94-122): `find({}, {firstName:1, lastName:1,
"company.name":1})` - an inclusion projection, so `_id` is kept (modelled as
the insertion index) and the company name stays nested. -/
def Model2.query_q1 (db : M2DB) (only_timing : Bool) : ReadOut :=
  let rows := db.persons.enum.map (fun e =>
    [("_id", Val.oid e.1), ("firstName", Val.str e.2.firstName),
     ("lastName", Val.str e.2.lastName),
     ("company", Val.doc [("name", Val.str e.2.company.name)])])
  { rows := rows, printed := if only_timing then [] else rows.take 10 }

/-- `Model2.query_q2` (model2.py:127-158): `$group` by embedded
`company.name` counting group sizes, then `$project {company_name: $_id,
num_employees:1, _id:0}`; one row per distinct embedded company name. -/
def Model2.query_q2 (db : M2DB) (only_timing : Bool) : ReadOut :=
  let names := (db.persons.map (fun p => p.company.name)).dedup
  let rows := names.map (fun nm =>
    [("company_name", Val.str nm),
     ("num_employees",
      Val.int ((db.persons.filter (fun p => p.company.name == nm)).length : Nat))])
  { rows := rows, printed := if only_timing then [] else rows.take 10 }

/-- The M2 Q3 match predicate (same `dateOfBirth < "1988-01-01"` filter). -/
def m2Qual (p : M2Person) : Bool := pyStrLt p.dateOfBirth q3Cutoff

/-- The document `Model2.query_q3` writes for a matched person. -/
def m2SetAge30 (p : M2Person) : M2Person := { p with age := 30 }

/-- `Model2.query_q3` (model2.py:163-182): identical flat `update_many` as in
M1, over `m2_persons`. -/
def Model2.query_q3 (db : M2DB) (only_timing : Bool) : WriteOut M2DB :=
  let matched := (db.persons.filter m2Qual).length
  let modified := (db.persons.filter (fun p => m2Qual p && decide (m2SetAge30 p ≠ p))).length
  let persons2 := db.persons.map (fun p => if m2Qual p then m2SetAge30 p else p)
  { db := { persons := persons2 }
    matched := matched
    modified := modified
    printed := if only_timing then []
      else ["Matched " ++ toString matched ++ " documents, Modified "
            ++ toString modified ++ " documents."] }

/-- The rewrite `Model2.query_q4` applies to a matched person document:
append " Company" to the embedded `company.name`. -/
def m2Q4Update (p : M2Person) : M2Person :=
  { p with company := { p.company with name := q4NewName p.company.name } }

/-- `Model2.query_q4` (model2.py:187-211): `update_many` over `m2_persons` on
the embedded `company.name` path - the same logical company is rewritten
once per employee document. -/
def Model2.query_q4 (db : M2DB) (only_timing : Bool) : WriteOut M2DB :=
  let matched := (db.persons.filter (fun p => q4Match p.company.name)).length
  let modified := (db.persons.filter (fun p =>
    q4Match p.company.name && decide (m2Q4Update p ≠ p))).length
  let persons2 := db.persons.map (fun p => if q4Match p.company.name then m2Q4Update p else p)
  { db := { persons := persons2 }
    matched := matched
    modified := modified
    printed := if only_timing then []
      else ["Matched " ++ toString matched ++ " documents, Modified "
            ++ toString modified ++ " documents."] }

/-! ## Model 3 (`model3.py`): company documents embedding the staff array -/

/-- Build an embedded staff member from a fixture person. -/
def mkM3Person (fp : FakePerson) : M3Person :=
  { age := 2025 - fp.birthYear
    companyEmail := fp.companyEmail
    dateOfBirth := fp.dateOfBirth
    firstName := fp.firstName
    lastName := fp.lastName
    sex := fp.sex }

/-- Build the i-th company document of M3 with its `persons_per_company`
staff members (staff of company `i` consumes fixture persons
`i * persons_per_company + j`, matching the sequential generation order). -/
def mkM3Company (fake : Fixture) (persons_per_company i : Nat) : M3Company :=
  let c := fake.companyAt i
  { domain := c.domain, email := c.email, name := c.name, url := c.url
    vatNumber := c.vatNumber
    persons := (List.range persons_per_company).map
      (fun j => mkM3Person (fake.personAt (i * persons_per_company + j))) }

/-- `Model3.data_generator(n, only_timing)` (model3.py:43-91): drops
`m3_companies`, computes `persons_per_company = n_persons // n_companies`
(raising `ZeroDivisionError` when `n_companies = 0`), then inserts
`n_companies` company documents each embedding exactly `persons_per_company`
staff members; prints one progress line per company unless `only_timing`. -/
def Model3.data_generator (n : Nat) (fake : Fixture) (only_timing : Bool) :
    Except PyErr (GenOut M3DB) :=
  let n_companies := n / 500
  let n_persons := n - n_companies
  (pydiv n_persons n_companies).map (fun persons_per_company =>
    let cs := (List.range n_companies).map (mkM3Company fake persons_per_company)
    let msgs := if only_timing then []
      else (List.range n_companies).map (fun i =>
        toString (i + 1) ++ " companies inserted with "
        ++ toString persons_per_company ++ " persons")
    { db := { companies := cs }, out := msgs })

/-- `Model3.query_q1` (model3.py:96-129): `$unwind $persons`, then `$project
{_id:0, fullName: $concat [firstName, " ", lastName], companyName: $name}`. -/
def Model3.query_q1 (db : M3DB) (only_timing : Bool) : ReadOut :=
  let rows := db.companies.flatMap (fun c =>
    c.persons.map (fun p =>
      [("fullName", Val.str (p.firstName ++ " " ++ p.lastName)),
       ("companyName", Val.str c.name)]))
  { rows := rows, printed := if only_timing then [] else rows.take 10 }

/-- `Model3.query_q2` (model3.py:134-162): `$project {_id:0, name:1,
num_employees: $size $persons}` - one row per company document. -/
def Model3.query_q2 (db : M3DB) (only_timing : Bool) : ReadOut :=
  let rows := db.companies.map (fun c =>
    [("name", Val.str c.name),
     ("num_employees", Val.int (c.persons.length : Nat))])
  { rows := rows, printed := if only_timing then [] else rows.take 10 }

/-- The M3 Q3 array-element predicate (`elem.dateOfBirth < "1988-01-01"`,
used both in the top-level filter `persons.dateOfBirth $lt` and in the
array filter). -/
def m3Qual (p : M3Person) : Bool := pyStrLt p.dateOfBirth q3Cutoff

/-- The staff-element rewrite of M3 Q3 (`persons.$[elem].age = 30`). -/
def m3SetAge30 (p : M3Person) : M3Person := { p with age := 30 }

/-- The top-level Q3 filter of M3: `{"persons.dateOfBirth": {$lt: ...}}`
matches a company document iff some embedded person qualifies. -/
def m3DocMatch (c : M3Company) : Bool := c.persons.any m3Qual

/-- The update M3 Q3 applies to a matched company: set `age := 30` exactly on
the staff elements selected by the array filter. -/
def m3Q3Update (c : M3Company) : M3Company :=
  { c with persons := c.persons.map (fun p => if m3Qual p then m3SetAge30 p else p) }

/-- `Model3.query_q3` (model3.py:167-194): `update_many` with top-level
filter on `persons.dateOfBirth`, `$set persons.$[elem].age = 30`, and
`array_filters = [{elem.dateOfBirth: {$lt: "1988-01-01"}}]`; counts are per
company document. -/
def Model3.query_q3 (db : M3DB) (only_timing : Bool) : WriteOut M3DB :=
  let matched := (db.companies.filter m3DocMatch).length
  let modified := (db.companies.filter (fun c =>
    m3DocMatch c && decide (m3Q3Update c ≠ c))).length
  let companies2 := db.companies.map (fun c => if m3DocMatch c then m3Q3Update c else c)
  { db := { companies := companies2 }
    matched := matched
    modified := modified
    printed := if only_timing then []
      else ["Matched " ++ toString matched ++ " documents, Modified "
            ++ toString modified ++ " documents."] }

/-- The rewrite `Model3.query_q4` applies to a matched company document. -/
def m3Q4Update (c : M3Company) : M3Company := { c with name := q4NewName c.name }

/-- `Model3.query_q4` (model3.py:199-223): same as M1's Q4, over
`m3_companies`. -/
def Model3.query_q4 (db : M3DB) (only_timing : Bool) : WriteOut M3DB :=
  let matched := (db.companies.filter (fun c => q4Match c.name)).length
  let modified := (db.companies.filter (fun c =>
    q4Match c.name && decide (m3Q4Update c ≠ c))).length
  let companies2 := db.companies.map (fun c => if q4Match c.name then m3Q4Update c else c)
  { db := { companies := companies2 }
    matched := matched
    modified := modified
    printed := if only_timing then []
      else ["Matched " ++ toString matched ++ " documents, Modified "
            ++ toString modified ++ " documents."] }

/-! ## Connection lifecycle model (section 5 of the spec)

Every method body in all three classes has the same straight-line shape:
`client = MongoClient(...)`; some store calls; `client.close()`; `return` -
with no `with` block and no `try`/`finally`.  A raised store-level error
therefore skips every remaining step, including the `close()`. -/

/-- One step of a method body: open the client connection, perform a store
call (drop / create / insert / find / aggregate / update), or close the
connection. -/
inductive OpStep where
  | connect
  | storeOp
  | close

/-- Execute a method body under a failure oracle `ok` (whether the k-th store
call succeeds).  Returns (connection still open?, exception raised?).  A
failed store call raises: the remaining steps are skipped and the exception
propagates to the caller. -/
def runConnSteps (ok : Nat → Bool) : List OpStep → Nat → Bool → Bool × Bool
  | [], _, conn => (conn, false)
  | OpStep.connect :: rest, k, _ => runConnSteps ok rest k true
  | OpStep.storeOp :: rest, k, conn =>
    if ok k then runConnSteps ok rest (k + 1) conn else (conn, true)
  | OpStep.close :: rest, k, _ => runConnSteps ok rest k false

/-- The common shape of every operation's body: connect, `k` store calls,
close. -/
def opBody (k : Nat) : List OpStep :=
  OpStep.connect :: (List.replicate k OpStep.storeOp ++ [OpStep.close])

/-- Step sequence of `Model1.data_generator` for entity count `n`: two
`drop_collection`, two `create_collection`, `n // 500` company inserts,
`n - n // 500` person inserts, then `close`. -/
def m1_data_generator_steps (n : Nat) : List OpStep :=
  opBody (4 + (n / 500) + (n - n / 500))

/-- Step sequence of `Model2.query_q1`: the single `find` call. -/
def m2_query_q1_steps : List OpStep := opBody 1

/-- Step sequence of `Model3.query_q3`: the single `update_many` call. -/
def m3_query_q3_steps : List OpStep := opBody 1

/-! ## Specification-side descriptions used in theorem statements -/

/-- The company collection `Model1.data_generator n` produces. -/
def m1GenCompanies (n : Nat) (fake : Fixture) : List (Nat × Company) :=
  (List.range (n / 500)).map (fun k => (k, fake.companyAt k))

/-- The person collection `Model1.data_generator n` produces: the i-th person
references company `i % (n // 500)` (round-robin). -/
def m1GenPersons (n : Nat) (fake : Fixture) : List M1Person :=
  (List.range (n - n / 500)).map (fun i => mkM1Person (fake.personAt i) (i % (n / 500)))

/-- The person collection `Model2.data_generator n` produces: the i-th person
embeds a copy of company value `i % (n // 500)` (round-robin). -/
def m2GenPersons (n : Nat) (fake : Fixture) : List M2Person :=
  (List.range (n - n / 500)).map
    (fun i => mkM2Person (fake.personAt i) (fake.companyAt (i % (n / 500))))

/-- The company collection `Model3.data_generator n` produces: each of the
`n // 500` companies embeds exactly `(n - n//500) // (n//500)` staff. -/
def m3GenCompanies (n : Nat) (fake : Fixture) : List M3Company :=
  (List.range (n / 500)).map (mkM3Company fake ((n - n / 500) / (n / 500)))

/-- Total number of person sub-documents stored across all M3 companies. -/
def m3TotalStaff (db : M3DB) : Nat :=
  (db.companies.map (fun c => c.persons.length)).sum

/-- How many of the first `np` round-robin indexes land on bucket `c` (the
per-company employee count induced by `i % nc` assignment). -/
def assignedCount (np nc c : Nat) : Nat :=
  ((List.range np).filter (fun i => i % nc == c)).length

/-- Number of stored M1 persons referencing company ObjectId `cid`. -/
def m1CompanyCount (db : M1DB) (cid : Nat) : Nat :=
  (db.persons.filter (fun p => p.company == cid)).length

/-- Number of stored M2 persons embedding exactly the company value `c`. -/
def m2CompanyCount (db : M2DB) (c : Company) : Nat :=
  (db.persons.filter (fun p => decide (p.company = c))).length

/-- The Q1 result rows of M1 on the generated database, per person index:
a `{firstName, lastName, companyName}` triple resolving the round-robin
company reference. -/
def m1Q1ExpectedRows (n : Nat) (fake : Fixture) : List Doc :=
  (List.range (n - n / 500)).map (fun i =>
    [("firstName", Val.str (fake.personAt i).firstName),
     ("lastName", Val.str (fake.personAt i).lastName),
     ("companyName", Val.str (fake.companyAt (i % (n / 500))).name)])

/-- The Q1 result rows of M2 on the generated database: the `_id` is kept by
the inclusion projection and the company name stays nested. -/
def m2Q1ExpectedRows (n : Nat) (fake : Fixture) : List Doc :=
  (List.range (n - n / 500)).map (fun i =>
    [("_id", Val.oid i),
     ("firstName", Val.str (fake.personAt i).firstName),
     ("lastName", Val.str (fake.personAt i).lastName),
     ("company", Val.doc [("name", Val.str (fake.companyAt (i % (n / 500))).name)])])

/-- The Q1 result rows of M3 on the generated database: one `{fullName,
companyName}` pair per embedded staff member. -/
def m3Q1ExpectedRows (n : Nat) (fake : Fixture) : List Doc :=
  (List.range (n / 500)).flatMap (fun i =>
    (List.range ((n - n / 500) / (n / 500))).map (fun j =>
      [("fullName",
        Val.str ((fake.personAt (i * ((n - n / 500) / (n / 500)) + j)).firstName
          ++ " " ++ (fake.personAt (i * ((n - n / 500) / (n / 500)) + j)).lastName)),
       ("companyName", Val.str (fake.companyAt i).name)]))

/-! ## Concrete inputs used by witnesses and counterexamples -/

/-- A fixed company value (name does not contain "company"). -/
def exCompanyA : Company :=
  { domain := "acme.example", email := "info@acme.example", name := "Acme"
    url := "http://acme.example", vatNumber := "IT01" }

/-- A fixed fixture person born before 1988. -/
def exPersonOld : FakePerson :=
  { birthYear := 1980, dateOfBirth := "1980-06-15"
    companyEmail := "ann@acme.example", firstName := "Ann", lastName := "Lee"
    sex := "F" }

/-- A constant fixture stream. -/
def constFixture : Fixture :=
  { companyAt := fun _ => exCompanyA, personAt := fun _ => exPersonOld }

/-- The M3 database generated for `n = 1000` (spec's minimal legal scale). -/
def m3gen1000 : Except PyErr (GenOut M3DB) := Model3.data_generator 1000 constFixture true

/-- The database component of `m3gen1000` (the error branch is unreachable:
`1000 / 500 = 2 > 0`). -/
def m3db1000 : M3DB :=
  match m3gen1000 with
  | .ok g => g.db
  | .error _ => { companies := [] }

/-- Staff member born 1980 with age 45. -/
def exM3StaffOld1 : M3Person :=
  { age := 45, companyEmail := "a@x.example", dateOfBirth := "1980-06-15"
    firstName := "Ann", lastName := "Lee", sex := "F" }

/-- Staff member born 1970 with age 55. -/
def exM3StaffOld2 : M3Person :=
  { age := 55, companyEmail := "b@x.example", dateOfBirth := "1970-01-02"
    firstName := "Bo", lastName := "Kim", sex := "M" }

/-- Staff member born 2000 with age 25. -/
def exM3StaffYoung : M3Person :=
  { age := 25, companyEmail := "c@x.example", dateOfBirth := "2000-03-04"
    firstName := "Cy", lastName := "Ray", sex := "M" }

/-- An M3 database with one company holding two staff born before 1988 and
one born after (a dataset with persons on both sides of the cutoff). -/
def exM3db : M3DB :=
  { companies := [
      { domain := "acme.example", email := "e@x.example", name := "Acme"
        url := "http://x.example", vatNumber := "V1"
        persons := [exM3StaffOld1, exM3StaffOld2, exM3StaffYoung] }] }

/-- M1 person born 1980, age 45, referencing company 0. -/
def exM1PersonOld : M1Person :=
  { age := 45, companyEmail := "a@x.example", dateOfBirth := "1980-06-15"
    firstName := "Ann", lastName := "Lee", sex := "F", company := 0 }

/-- M1 person born 2000, age 25, referencing company 0. -/
def exM1PersonYoung : M1Person :=
  { age := 25, companyEmail := "c@x.example", dateOfBirth := "2000-03-04"
    firstName := "Cy", lastName := "Ray", sex := "M", company := 0 }

/-- A small M1 database with one company and persons on both sides of the
Q3 cutoff. -/
def exM1db : M1DB :=
  { companies := [(0, exCompanyA)], persons := [exM1PersonOld, exM1PersonYoung] }

/-- A small M2 database with persons on both sides of the Q3 cutoff. -/
def exM2db : M2DB :=
  { persons := [
      { age := 45, companyEmail := "a@x.example", dateOfBirth := "1980-06-15"
        firstName := "Ann", lastName := "Lee", sex := "F", company := exCompanyA },
      { age := 25, companyEmail := "c@x.example", dateOfBirth := "2000-03-04"
        firstName := "Cy", lastName := "Ray", sex := "M", company := exCompanyA }] }

/-! ## Helper lemmas -/

theorem except_bind_ok {ε α β : Type} (a : α) (f : α → Except ε β) :
    (Except.ok a >>= f) = f a := rfl

theorem except_bind_error {ε α β : Type} (e : ε) (f : α → Except ε β) :
    ((Except.error e : Except ε α) >>= f) = .error e := rfl

theorem except_map_ok_eq {ε α β : Type} (f : α → β) (a : α) :
    (Except.ok a : Except ε α).map f = .ok (f a) := rfl

theorem except_map_error_eq {ε α β : Type} (f : α → β) (e : ε) :
    (Except.error e : Except ε α).map f = .error e := rfl

theorem pymod_pos (a b : Nat) (h : 0 < b) : pymod a b = .ok (a % b) := by
  have hb : b ≠ 0 := by omega
  simp [pymod, hb]

theorem pydiv_pos (a b : Nat) (h : 0 < b) : pydiv a b = .ok (a / b) := by
  have hb : b ≠ 0 := by omega
  simp [pydiv, hb]

theorem pymod_zero (a : Nat) : pymod a 0 = .error .zeroDivision := rfl

theorem pydiv_zero (a : Nat) : pydiv a 0 = .error .zeroDivision := rfl

theorem pyIndex_ok {α : Type} {l : List α} {i : Nat} {a : α} (h : l[i]? = some a) :
    pyIndex l i = .ok a := by
  simp [pyIndex, h]

theorem pyIndex_range {n i : Nat} (h : i < n) : pyIndex (List.range n) i = .ok i :=
  pyIndex_ok (List.getElem?_range h)

theorem pyIndex_map_range {α : Type} (f : Nat → α) {n i : Nat} (h : i < n) :
    pyIndex ((List.range n).map f) i = .ok (f i) := by
  apply pyIndex_ok
  rw [List.getElem?_map, List.getElem?_range h]
  rfl

theorem m1PersonStep_ok (fake : Fixture) {nc : Nat} (i : Nat) (h : 0 < nc) :
    m1PersonStep fake (List.range nc) nc i
      = .ok (mkM1Person (fake.personAt i) (i % nc)) := by
  simp [m1PersonStep, pymod_pos _ _ h, except_bind_ok, pyIndex_range (Nat.mod_lt i h)]

theorem m2PersonStep_ok (fake : Fixture) {nc : Nat} (i : Nat) (h : 0 < nc) :
    m2PersonStep fake ((List.range nc).map fake.companyAt) nc i
      = .ok (mkM2Person (fake.personAt i) (fake.companyAt (i % nc))) := by
  simp [m2PersonStep, pymod_pos _ _ h, except_bind_ok,
    pyIndex_map_range fake.companyAt (Nat.mod_lt i h)]

theorem genLoop_ok {β γ : Type} (g : Nat → Except PyErr β) (h : Nat → β)
    (m : Nat → List γ) (l : List Nat) (hg : ∀ i ∈ l, g i = .ok (h i))
    (acc : List β × List γ) :
    genLoop g m l acc = .ok (acc.1 ++ l.map h, acc.2 ++ l.flatMap m) := by
  induction l generalizing acc with
  | nil => simp [genLoop]
  | cons i rest ih =>
    have hi := hg i (by simp)
    simp only [genLoop, hi]
    rw [ih (fun j hj => hg j (by simp [hj]))]
    simp

theorem genLoop_map_fst {β γ : Type} (g : Nat → Except PyErr β)
    (m1 m2 : Nat → List γ) (l : List Nat) (a : List β) (o1 o2 : List γ) :
    (genLoop g m1 l (a, o1)).map Prod.fst = (genLoop g m2 l (a, o2)).map Prod.fst := by
  induction l generalizing a o1 o2 with
  | nil => rfl
  | cons i rest ih =>
    simp only [genLoop]
    cases hg : g i with
    | error e => rfl
    | ok p => exact ih _ _ _

theorem genLoop_error_head {β γ : Type} (g : Nat → Except PyErr β)
    (m : Nat → List γ) (i : Nat) (rest : List Nat) (acc : List β × List γ)
    (e : PyErr) (hg : g i = .error e) :
    genLoop g m (i :: rest) acc = .error e := by
  simp [genLoop, hg]

theorem list_map_eq_self {α : Type} (l : List α) (f : α → α) :
    l.map f = l ↔ ∀ a ∈ l, f a = a := by
  induction l with
  | nil => simp
  | cons a rest ih => simp [ih]

theorem flatMap_eq_map_of_singleton {α β : Type} (l : List α) (f : α → List β)
    (g : α → β) (h : ∀ a ∈ l, f a = [g a]) : l.flatMap f = l.map g := by
  induction l with
  | nil => simp
  | cons a rest ih =>
    rw [List.flatMap_cons, h a (by simp), ih (fun b hb => h b (by simp [hb]))]
    rfl

theorem range_filter_beq (nc m : Nat) :
    (List.range nc).filter (fun k => k == m) = if m < nc then [m] else [] := by
  induction nc with
  | zero => simp
  | succ n ih =>
    rw [List.range_succ, List.filter_append, ih]
    by_cases h1 : m < n
    · have h2 : m < n + 1 := by omega
      have h3 : ¬ (n == m) = true := by simp; omega
      simp [h1, h2, h3, List.filter]
    · by_cases h2 : m = n
      · subst h2
        simp [h1, List.filter]
      · have h3 : ¬ m < n + 1 := by omega
        have h4 : ¬ (n == m) = true := by simp; omega
        simp [h1, h3, h4, List.filter]

theorem listHasSub_append (l m pat : List Char) (h : listHasSub m pat = true) :
    listHasSub (l ++ m) pat = true := by
  induction l with
  | nil => simpa
  | cons c cs ih =>
    rw [List.cons_append, listHasSub]
    simp [ih]

theorem string_toList_append (s t : String) : (s ++ t).toList = s.toList ++ t.toList := by
  simp [String.toList, String.data_append]

theorem lowerChars_append (s t : String) :
    lowerChars (s ++ t) = lowerChars s ++ lowerChars t := by
  simp [lowerChars, string_toList_append]

theorem containsCI_append_suffix (s : String) :
    containsCI (s ++ " Company") "Company" = true := by
  unfold containsCI
  rw [lowerChars_append]
  apply listHasSub_append
  decide

theorem q4NewName_ne (s : String) : q4NewName s ≠ s := by
  intro h
  have h2 := congrArg String.data h
  rw [q4NewName] at h2
  rw [String.data_append] at h2
  have h3 := congrArg List.length h2
  simp at h3

theorem q4_company_changes (c : Company) : { c with name := q4NewName c.name } ≠ c := by
  intro h
  exact q4NewName_ne c.name (congrArg Company.name h)

theorem q4_m2person_changes (p : M2Person) : m2Q4Update p ≠ p := by
  intro h
  exact q4NewName_ne p.company.name (congrArg (fun q => q.company.name) h)

theorem q4_m3company_changes (c : M3Company) : m3Q4Update c ≠ c := by
  intro h
  exact q4NewName_ne c.name (congrArg M3Company.name h)

theorem m1SetAge30_ne_iff (p : M1Person) : m1SetAge30 p ≠ p ↔ p.age ≠ 30 := by
  constructor
  · intro h hage
    apply h
    cases p
    simp_all [m1SetAge30]
  · intro hage h
    exact hage (congrArg M1Person.age h).symm

theorem m2SetAge30_ne_iff (p : M2Person) : m2SetAge30 p ≠ p ↔ p.age ≠ 30 := by
  constructor
  · intro h hage
    apply h
    cases p
    simp_all [m2SetAge30]
  · intro hage h
    exact hage (congrArg M2Person.age h).symm

theorem m3SetAge30_ne_iff (p : M3Person) : m3SetAge30 p ≠ p ↔ p.age ≠ 30 := by
  constructor
  · intro h hage
    apply h
    cases p
    simp_all [m3SetAge30]
  · intro hage h
    exact hage (congrArg M3Person.age h).symm

theorem m3Q3Update_ne_iff (c : M3Company) :
    m3Q3Update c ≠ c ↔ ∃ p ∈ c.persons, m3Qual p = true ∧ p.age ≠ 30 := by
  unfold m3Q3Update
  constructor
  · intro h
    by_contra hno
    push_neg at hno
    apply h
    have hall : ∀ p ∈ c.persons, (if m3Qual p then m3SetAge30 p else p) = p := by
      intro p hp
      by_cases hq : m3Qual p
      · have hage := hno p hp hq
        rw [if_pos hq]
        cases p
        simp_all [m3SetAge30]
      · rw [if_neg hq]
    cases c with
    | mk d e nm u v ps =>
      exact congrArg (M3Company.mk d e nm u v) ((list_map_eq_self _ _).mpr hall)
  · rintro ⟨p, hp, hq, hage⟩ h
    have h2 : ∀ a ∈ c.persons, (if m3Qual a then m3SetAge30 a else a) = a := by
      apply (list_map_eq_self _ _).mp
      exact congrArg M3Company.persons h
    have h3 := h2 p hp
    rw [if_pos hq] at h3
    exact ((m3SetAge30_ne_iff p).mpr hage) h3

theorem succ_mod (np nc : Nat) (h : 0 < nc) :
    (np + 1) % nc = if np % nc + 1 = nc then 0 else np % nc + 1 := by
  have heq : np + 1 = (np % nc + 1) + (np / nc) * nc := by
    have hd := Nat.div_add_mod np nc
    calc np + 1 = (nc * (np / nc) + np % nc) + 1 := by rw [hd]
    _ = (np % nc + 1) + (np / nc) * nc := by ring
  rw [heq, Nat.add_mul_mod_self_right]
  by_cases hc : np % nc + 1 = nc
  · simp [hc, Nat.mod_self]
  · have hlt : np % nc + 1 < nc := by
      have := Nat.mod_lt np h
      omega
    rw [Nat.mod_eq_of_lt hlt]
    simp [hc]

theorem succ_div (np nc : Nat) (h : 0 < nc) :
    (np + 1) / nc = if np % nc + 1 = nc then np / nc + 1 else np / nc := by
  have heq : np + 1 = (np % nc + 1) + (np / nc) * nc := by
    have hd := Nat.div_add_mod np nc
    calc np + 1 = (nc * (np / nc) + np % nc) + 1 := by rw [hd]
    _ = (np % nc + 1) + (np / nc) * nc := by ring
  rw [heq, Nat.add_mul_div_right _ _ h]
  by_cases hc : np % nc + 1 = nc
  · rw [hc, Nat.div_self h]
    simp [hc]
    omega
  · have hlt : np % nc + 1 < nc := by
      have := Nat.mod_lt np h
      omega
    rw [Nat.div_eq_of_lt hlt]
    simp [hc]

theorem assignedCount_eq (np nc c : Nat) (h : 0 < nc) (hc : c < nc) :
    assignedCount np nc c = np / nc + if c < np % nc then 1 else 0 := by
  induction np with
  | zero => simp [assignedCount, Nat.zero_div, Nat.zero_mod]
  | succ np ih =>
    have hm := succ_mod np nc h
    have hd := succ_div np nc h
    have hblt : np % nc < nc := Nat.mod_lt np h
    unfold assignedCount at ih ⊢
    rw [List.range_succ, List.filter_append, List.length_append, ih, hm, hd]
    have hf : (List.filter (fun i => i % nc == c) [np]).length
        = if np % nc = c then 1 else 0 := by
      by_cases hq : np % nc = c
      · simp [List.filter, hq]
      · have hb : (np % nc == c) = false := by simp [hq]
        simp [List.filter, hb, hq]
    rw [hf]
    split_ifs <;> omega

theorem except_map_eq_ok {ε α β : Type} {e : Except ε α} {f : α → β} {b : β}
    (h : e.map f = .ok b) : ∃ a, e = .ok a ∧ f a = b := by
  cases e with
  | error er => simp [Except.map] at h
  | ok a =>
    refine ⟨a, rfl, ?_⟩
    simpa [Except.map] using h

theorem m1_gen_db (n : Nat) (fake : Fixture) (t : Bool) (h : 0 < n / 500) :
    (Model1.data_generator n fake t).map GenOut.db
      = .ok { companies := m1GenCompanies n fake, persons := m1GenPersons n fake } := by
  simp only [Model1.data_generator]
  rw [genLoop_ok _ (fun i => mkM1Person (fake.personAt i) (i % (n / 500))) _ _
    (fun i _ => m1PersonStep_ok fake i h) ([], [])]
  simp [Except.map, m1GenCompanies, m1GenPersons]

theorem m2_gen_db (n : Nat) (fake : Fixture) (t : Bool) (h : 0 < n / 500) :
    (Model2.data_generator n fake t).map GenOut.db
      = .ok { persons := m2GenPersons n fake } := by
  simp only [Model2.data_generator]
  rw [genLoop_ok _ (fun i => mkM2Person (fake.personAt i) (fake.companyAt (i % (n / 500)))) _ _
    (fun i _ => m2PersonStep_ok fake i h) ([], [])]
  simp [Except.map, m2GenPersons]

theorem m3_gen_db (n : Nat) (fake : Fixture) (t : Bool) (h : 0 < n / 500) :
    (Model3.data_generator n fake t).map GenOut.db
      = .ok { companies := m3GenCompanies n fake } := by
  simp only [Model3.data_generator]
  rw [pydiv_pos _ _ h]
  simp [Except.map, m3GenCompanies]

theorem m3_gen_zero (n : Nat) (fake : Fixture) (t : Bool) (h : n / 500 = 0) :
    Model3.data_generator n fake t = .error .zeroDivision := by
  simp only [Model3.data_generator, h]
  rw [pydiv_zero]
  rfl

theorem m1_gen_zero (n : Nat) (fake : Fixture) (t : Bool) (h : n / 500 = 0)
    (h1 : 1 ≤ n) : Model1.data_generator n fake t = .error .zeroDivision := by
  obtain ⟨m, rfl⟩ : ∃ m, n = m + 1 := ⟨n - 1, by omega⟩
  simp only [Model1.data_generator, h, Nat.sub_zero, List.range_succ_eq_map]
  rw [genLoop_error_head _ _ _ _ _ _ rfl]
  rfl

theorem m2_gen_zero (n : Nat) (fake : Fixture) (t : Bool) (h : n / 500 = 0)
    (h1 : 1 ≤ n) : Model2.data_generator n fake t = .error .zeroDivision := by
  obtain ⟨m, rfl⟩ : ∃ m, n = m + 1 := ⟨n - 1, by omega⟩
  simp only [Model2.data_generator, h, Nat.sub_zero, List.range_succ_eq_map]
  rw [genLoop_error_head _ _ _ _ _ _ rfl]
  rfl

theorem m3_q3_company_update (db : M3DB) (t : Bool) (i : Nat) :
    (Model3.query_q3 db t).db.companies[i]?
      = db.companies[i]?.map (fun c => if m3DocMatch c then m3Q3Update c else c) := by
  have hc : (Model3.query_q3 db t).db.companies
      = db.companies.map (fun c => if m3DocMatch c then m3Q3Update c else c) := rfl
  rw [hc, List.getElem?_map]

theorem m3_q3_person_update (db : M3DB) (t : Bool) (i j : Nat) :
    (Model3.query_q3 db t).db.companies[i]?.bind (fun c => c.persons[j]?)
      = (db.companies[i]?.bind (fun c => c.persons[j]?)).map
          (fun p => if m3Qual p then m3SetAge30 p else p) := by
  rw [m3_q3_company_update]
  cases hco : db.companies[i]? with
  | none => rfl
  | some c =>
    simp only [Option.map_some', Option.some_bind]
    by_cases hm : m3DocMatch c
    · rw [if_pos hm]
      show (m3Q3Update c).persons[j]? = _
      simp [m3Q3Update, List.getElem?_map]
    · rw [if_neg hm]
      cases hpj : c.persons[j]? with
      | none => rfl
      | some p =>
        have hp : p ∈ c.persons := List.getElem?_mem hpj
        have hq : m3Qual p = false := by
          by_contra hq1
          simp only [Bool.not_eq_false] at hq1
          exact hm (List.any_eq_true.mpr ⟨p, hp, hq1⟩)
        simp [hq]

/-- Claim C3: in M3's Q3, the update (array-scoped via `array_filters`)
rewrites `age` to 30 exactly on the embedded staff elements whose
`dateOfBirth` sorts before "1988-01-01"; sibling elements that do not
satisfy the predicate keep their age (even inside a company document that
matched the top-level filter), every other person field, the company's
scalar fields, the staff-array length, and the collection size are all
unchanged. -/
theorem claim_C3 (db : M3DB) (t : Bool) (i j : Nat) :
    ((Model3.query_q3 db t).db.companies[i]?.bind (fun c => c.persons[j]?)).map M3Person.age
      = (db.companies[i]?.bind (fun c => c.persons[j]?)).map
          (fun p => if m3Qual p then (30 : Int) else p.age)
  ∧ ((Model3.query_q3 db t).db.companies[i]?.bind (fun c => c.persons[j]?)).map M3Person.dateOfBirth
      = (db.companies[i]?.bind (fun c => c.persons[j]?)).map M3Person.dateOfBirth
  ∧ ((Model3.query_q3 db t).db.companies[i]?.bind (fun c => c.persons[j]?)).map M3Person.firstName
      = (db.companies[i]?.bind (fun c => c.persons[j]?)).map M3Person.firstName
  ∧ ((Model3.query_q3 db t).db.companies[i]?.bind (fun c => c.persons[j]?)).map M3Person.lastName
      = (db.companies[i]?.bind (fun c => c.persons[j]?)).map M3Person.lastName
  ∧ ((Model3.query_q3 db t).db.companies[i]?.bind (fun c => c.persons[j]?)).map M3Person.companyEmail
      = (db.companies[i]?.bind (fun c => c.persons[j]?)).map M3Person.companyEmail
  ∧ ((Model3.query_q3 db t).db.companies[i]?.bind (fun c => c.persons[j]?)).map M3Person.sex
      = (db.companies[i]?.bind (fun c => c.persons[j]?)).map M3Person.sex
  ∧ (Model3.query_q3 db t).db.companies[i]?.map M3Company.name
      = db.companies[i]?.map M3Company.name
  ∧ (Model3.query_q3 db t).db.companies[i]?.map (fun c => c.persons.length)
      = db.companies[i]?.map (fun c => c.persons.length)
  ∧ (Model3.query_q3 db t).db.companies.length = db.companies.length := by
  refine ⟨?_, ?_, ?_, ?_, ?_, ?_, ?_, ?_, ?_⟩
  · rw [m3_q3_person_update, Option.map_map]
    cases db.companies[i]?.bind (fun c => c.persons[j]?) with
    | none => rfl
    | some p =>
      by_cases hq : m3Qual p <;> simp [Function.comp, hq, m3SetAge30]
  · rw [m3_q3_person_update, Option.map_map]
    cases db.companies[i]?.bind (fun c => c.persons[j]?) with
    | none => rfl
    | some p =>
      by_cases hq : m3Qual p <;> simp [Function.comp, hq, m3SetAge30]
  · rw [m3_q3_person_update, Option.map_map]
    cases db.companies[i]?.bind (fun c => c.persons[j]?) with
    | none => rfl
    | some p =>
      by_cases hq : m3Qual p <;> simp [Function.comp, hq, m3SetAge30]
  · rw [m3_q3_person_update, Option.map_map]
    cases db.companies[i]?.bind (fun c => c.persons[j]?) with
    | none => rfl
    | some p =>
      by_cases hq : m3Qual p <;> simp [Function.comp, hq, m3SetAge30]
  · rw [m3_q3_person_update, Option.map_map]
    cases db.companies[i]?.bind (fun c => c.persons[j]?) with
    | none => rfl
    | some p =>
      by_cases hq : m3Qual p <;> simp [Function.comp, hq, m3SetAge30]
  · rw [m3_q3_person_update, Option.map_map]
    cases db.companies[i]?.bind (fun c => c.persons[j]?) with
    | none => rfl
    | some p =>
      by_cases hq : m3Qual p <;> simp [Function.comp, hq, m3SetAge30]
  · rw [m3_q3_company_update, Option.map_map]
    cases db.companies[i]? with
    | none => rfl
    | some c =>
      by_cases hm : m3DocMatch c <;> simp [Function.comp, hm, m3Q3Update]
  · rw [m3_q3_company_update, Option.map_map]
    cases db.companies[i]? with
    | none => rfl
    | some c =>
      by_cases hm : m3DocMatch c <;> simp [Function.comp, hm, m3Q3Update]
  · show (db.companies.map _).length = _
    rw [List.length_map]

theorem m1_q4_name (db1 : M1DB) (t : Bool) (k : Nat) :
    (Model1.query_q4 db1 t).db.companies[k]?.map (fun c => c.2.name)
      = db1.companies[k]?.map (fun c =>
          if containsCI c.2.name "Company" then c.2.name else q4NewName c.2.name) := by
  have hc : (Model1.query_q4 db1 t).db.companies
      = db1.companies.map (fun c =>
          if q4Match c.2.name then (c.1, { c.2 with name := q4NewName c.2.name }) else c) := rfl
  rw [hc, List.getElem?_map, Option.map_map]
  cases db1.companies[k]? with
  | none => rfl
  | some c =>
    by_cases hq : containsCI c.2.name "Company" <;> simp [Function.comp, q4Match, hq]

theorem m1_q4_modified_eq (db1 : M1DB) (t : Bool) :
    (Model1.query_q4 db1 t).modified = (Model1.query_q4 db1 t).matched := by
  show (db1.companies.filter _).length = (db1.companies.filter _).length
  congr 1
  apply List.filter_congr
  intro c _
  by_cases hq : q4Match c.2.name
  · simp [hq, q4_company_changes c.2]
  · simp [hq]

theorem m1_q4_nomatch (db : M1DB) (t : Bool)
    (hall : ∀ c ∈ db.companies, q4Match c.2.name = false) :
    (Model1.query_q4 db t).matched = 0 ∧ (Model1.query_q4 db t).modified = 0
    ∧ (Model1.query_q4 db t).db = db := by
  refine ⟨?_, ?_, ?_⟩
  · show (db.companies.filter _).length = 0
    rw [List.filter_eq_nil_iff.mpr (fun c hc => by simp [hall c hc])]
    rfl
  · show (db.companies.filter _).length = 0
    rw [List.filter_eq_nil_iff.mpr (fun c hc => by simp [hall c hc])]
    rfl
  · have hmap : db.companies.map (fun c =>
        if q4Match c.2.name then (c.1, { c.2 with name := q4NewName c.2.name }) else c)
        = db.companies :=
      (list_map_eq_self _ _).mpr (fun c hc => by simp [hall c hc])
    show { db with companies := _ } = db
    rw [hmap]

theorem m1_q4_post_nomatch (db1 : M1DB) (t : Bool) :
    ∀ c ∈ (Model1.query_q4 db1 t).db.companies, q4Match c.2.name = false := by
  intro c hc
  have hcs : (Model1.query_q4 db1 t).db.companies
      = db1.companies.map (fun c =>
          if q4Match c.2.name then (c.1, { c.2 with name := q4NewName c.2.name }) else c) := rfl
  rw [hcs] at hc
  obtain ⟨c0, hc0, rfl⟩ := List.mem_map.mp hc
  by_cases hq : q4Match c0.2.name
  · have hcon : containsCI c0.2.name "Company" = false := by
      simpa [q4Match] using hq
    simp [hq, q4Match, hcon, q4NewName, containsCI_append_suffix]
  · simp only [Bool.not_eq_true] at hq
    simp [hq]

theorem m2_q4_name (db2 : M2DB) (t : Bool) (k : Nat) :
    (Model2.query_q4 db2 t).db.persons[k]?.map (fun p => p.company.name)
      = db2.persons[k]?.map (fun p =>
          if containsCI p.company.name "Company" then p.company.name
          else q4NewName p.company.name) := by
  have hc : (Model2.query_q4 db2 t).db.persons
      = db2.persons.map (fun p => if q4Match p.company.name then m2Q4Update p else p) := rfl
  rw [hc, List.getElem?_map, Option.map_map]
  cases db2.persons[k]? with
  | none => rfl
  | some p =>
    by_cases hq : containsCI p.company.name "Company" <;>
      simp [Function.comp, q4Match, m2Q4Update, hq]

theorem m2_q4_modified_eq (db2 : M2DB) (t : Bool) :
    (Model2.query_q4 db2 t).modified = (Model2.query_q4 db2 t).matched := by
  show (db2.persons.filter _).length = (db2.persons.filter _).length
  congr 1
  apply List.filter_congr
  intro p _
  by_cases hq : q4Match p.company.name
  · simp [hq, q4_m2person_changes p]
  · simp [hq]

theorem m2_q4_nomatch (db : M2DB) (t : Bool)
    (hall : ∀ p ∈ db.persons, q4Match p.company.name = false) :
    (Model2.query_q4 db t).matched = 0 ∧ (Model2.query_q4 db t).modified = 0
    ∧ (Model2.query_q4 db t).db = db := by
  refine ⟨?_, ?_, ?_⟩
  · show (db.persons.filter _).length = 0
    rw [List.filter_eq_nil_iff.mpr (fun p hp => by simp [hall p hp])]
    rfl
  · show (db.persons.filter _).length = 0
    rw [List.filter_eq_nil_iff.mpr (fun p hp => by simp [hall p hp])]
    rfl
  · have hmap : db.persons.map (fun p => if q4Match p.company.name then m2Q4Update p else p)
        = db.persons :=
      (list_map_eq_self _ _).mpr (fun p hp => by simp [hall p hp])
    show M2DB.mk _ = db
    rw [hmap]

theorem m2_q4_post_nomatch (db2 : M2DB) (t : Bool) :
    ∀ p ∈ (Model2.query_q4 db2 t).db.persons, q4Match p.company.name = false := by
  intro p hp
  have hcs : (Model2.query_q4 db2 t).db.persons
      = db2.persons.map (fun p => if q4Match p.company.name then m2Q4Update p else p) := rfl
  rw [hcs] at hp
  obtain ⟨p0, hp0, rfl⟩ := List.mem_map.mp hp
  by_cases hq : q4Match p0.company.name
  · have hcon : containsCI p0.company.name "Company" = false := by
      simpa [q4Match] using hq
    simp [hq, q4Match, m2Q4Update, hcon, q4NewName, containsCI_append_suffix]
  · simp only [Bool.not_eq_true] at hq
    simp [hq]

theorem m3_q4_name (db3 : M3DB) (t : Bool) (k : Nat) :
    (Model3.query_q4 db3 t).db.companies[k]?.map M3Company.name
      = db3.companies[k]?.map (fun c =>
          if containsCI c.name "Company" then c.name else q4NewName c.name) := by
  have hc : (Model3.query_q4 db3 t).db.companies
      = db3.companies.map (fun c => if q4Match c.name then m3Q4Update c else c) := rfl
  rw [hc, List.getElem?_map, Option.map_map]
  cases db3.companies[k]? with
  | none => rfl
  | some c =>
    by_cases hq : containsCI c.name "Company" <;>
      simp [Function.comp, q4Match, m3Q4Update, hq]

theorem m3_q4_modified_eq (db3 : M3DB) (t : Bool) :
    (Model3.query_q4 db3 t).modified = (Model3.query_q4 db3 t).matched := by
  show (db3.companies.filter _).length = (db3.companies.filter _).length
  congr 1
  apply List.filter_congr
  intro c _
  by_cases hq : q4Match c.name
  · simp [hq, q4_m3company_changes c]
  · simp [hq]

theorem m3_q4_nomatch (db : M3DB) (t : Bool)
    (hall : ∀ c ∈ db.companies, q4Match c.name = false) :
    (Model3.query_q4 db t).matched = 0 ∧ (Model3.query_q4 db t).modified = 0
    ∧ (Model3.query_q4 db t).db = db := by
  refine ⟨?_, ?_, ?_⟩
  · show (db.companies.filter _).length = 0
    rw [List.filter_eq_nil_iff.mpr (fun c hc => by simp [hall c hc])]
    rfl
  · show (db.companies.filter _).length = 0
    rw [List.filter_eq_nil_iff.mpr (fun c hc => by simp [hall c hc])]
    rfl
  · have hmap : db.companies.map (fun c => if q4Match c.name then m3Q4Update c else c)
        = db.companies :=
      (list_map_eq_self _ _).mpr (fun c hc => by simp [hall c hc])
    show M3DB.mk _ = db
    rw [hmap]

theorem m3_q4_post_nomatch (db3 : M3DB) (t : Bool) :
    ∀ c ∈ (Model3.query_q4 db3 t).db.companies, q4Match c.name = false := by
  intro c hc
  have hcs : (Model3.query_q4 db3 t).db.companies
      = db3.companies.map (fun c => if q4Match c.name then m3Q4Update c else c) := rfl
  rw [hcs] at hc
  obtain ⟨c0, hc0, rfl⟩ := List.mem_map.mp hc
  by_cases hq : q4Match c0.name
  · have hcon : containsCI c0.name "Company" = false := by
      simpa [q4Match] using hq
    simp [hq, q4Match, m3Q4Update, hcon, q4NewName, containsCI_append_suffix]
  · simp only [Bool.not_eq_true] at hq
    simp [hq]

/-- Claim C5: in every model, Q4 matches exactly the documents whose company
name does not contain "company" case-insensitively and appends the literal
suffix " Company" to them exactly once (all other names are untouched), its
modified count equals its matched count, and a second run of Q4 on the
resulting state matches nothing, modifies zero documents, and leaves the
database unchanged. -/
theorem claim_C5 (db1 : M1DB) (db2 : M2DB) (db3 : M3DB) (t t2 : Bool) :
    (∀ k : Nat, (Model1.query_q4 db1 t).db.companies[k]?.map (fun c => c.2.name)
      = db1.companies[k]?.map (fun c =>
          if containsCI c.2.name "Company" then c.2.name else c.2.name ++ " Company"))
  ∧ (Model1.query_q4 db1 t).modified = (Model1.query_q4 db1 t).matched
  ∧ (Model1.query_q4 (Model1.query_q4 db1 t).db t2).matched = 0
  ∧ (Model1.query_q4 (Model1.query_q4 db1 t).db t2).modified = 0
  ∧ (Model1.query_q4 (Model1.query_q4 db1 t).db t2).db = (Model1.query_q4 db1 t).db
  ∧ (∀ k : Nat, (Model2.query_q4 db2 t).db.persons[k]?.map (fun p => p.company.name)
      = db2.persons[k]?.map (fun p =>
          if containsCI p.company.name "Company" then p.company.name
          else p.company.name ++ " Company"))
  ∧ (Model2.query_q4 db2 t).modified = (Model2.query_q4 db2 t).matched
  ∧ (Model2.query_q4 (Model2.query_q4 db2 t).db t2).matched = 0
  ∧ (Model2.query_q4 (Model2.query_q4 db2 t).db t2).modified = 0
  ∧ (Model2.query_q4 (Model2.query_q4 db2 t).db t2).db = (Model2.query_q4 db2 t).db
  ∧ (∀ k : Nat, (Model3.query_q4 db3 t).db.companies[k]?.map M3Company.name
      = db3.companies[k]?.map (fun c =>
          if containsCI c.name "Company" then c.name else c.name ++ " Company"))
  ∧ (Model3.query_q4 db3 t).modified = (Model3.query_q4 db3 t).matched
  ∧ (Model3.query_q4 (Model3.query_q4 db3 t).db t2).matched = 0
  ∧ (Model3.query_q4 (Model3.query_q4 db3 t).db t2).modified = 0
  ∧ (Model3.query_q4 (Model3.query_q4 db3 t).db t2).db = (Model3.query_q4 db3 t).db := by
  have h1 := m1_q4_nomatch (Model1.query_q4 db1 t).db t2 (m1_q4_post_nomatch db1 t)
  have h2 := m2_q4_nomatch (Model2.query_q4 db2 t).db t2 (m2_q4_post_nomatch db2 t)
  have h3 := m3_q4_nomatch (Model3.query_q4 db3 t).db t2 (m3_q4_post_nomatch db3 t)
  exact ⟨fun k => m1_q4_name db1 t k, m1_q4_modified_eq db1 t, h1.1, h1.2.1, h1.2.2,
    fun k => m2_q4_name db2 t k, m2_q4_modified_eq db2 t, h2.1, h2.2.1, h2.2.2,
    fun k => m3_q4_name db3 t k, m3_q4_modified_eq db3 t, h3.1, h3.2.1, h3.2.2⟩

theorem m1_q3_modified (db : M1DB) (t : Bool) :
    (Model1.query_q3 db t).modified
      = (db.persons.filter (fun p => m1Qual p && decide (p.age ≠ 30))).length := by
  show (db.persons.filter _).length = _
  congr 1
  apply List.filter_congr
  intro p _
  congr 1
  exact decide_eq_decide.mpr (m1SetAge30_ne_iff p)

theorem m2_q3_modified (db : M2DB) (t : Bool) :
    (Model2.query_q3 db t).modified
      = (db.persons.filter (fun p => m2Qual p && decide (p.age ≠ 30))).length := by
  show (db.persons.filter _).length = _
  congr 1
  apply List.filter_congr
  intro p _
  congr 1
  exact decide_eq_decide.mpr (m2SetAge30_ne_iff p)

theorem m3_q3_modified (db : M3DB) (t : Bool) :
    (Model3.query_q3 db t).modified
      = (db.companies.filter (fun c => m3DocMatch c
          && c.persons.any (fun p => m3Qual p && decide (p.age ≠ 30)))).length := by
  show (db.companies.filter _).length = _
  congr 1
  apply List.filter_congr
  intro c _
  congr 1
  rw [Bool.eq_iff_iff, decide_eq_true_eq, m3Q3Update_ne_iff, List.any_eq_true]
  constructor
  · rintro ⟨p, hp, hq, ha⟩
    exact ⟨p, hp, by simp [hq, ha]⟩
  · rintro ⟨p, hp, hpa⟩
    simp only [Bool.and_eq_true, decide_eq_true_eq] at hpa
    exact ⟨p, hp, hpa.1, hpa.2⟩

theorem m1_q3_age (db : M1DB) (t : Bool) (k : Nat) :
    (Model1.query_q3 db t).db.persons[k]?.map M1Person.age
      = db.persons[k]?.map (fun p => if m1Qual p then (30 : Int) else p.age) := by
  have hc : (Model1.query_q3 db t).db.persons
      = db.persons.map (fun p => if m1Qual p then m1SetAge30 p else p) := rfl
  rw [hc, List.getElem?_map, Option.map_map]
  cases db.persons[k]? with
  | none => rfl
  | some p =>
    by_cases hq : m1Qual p <;> simp [Function.comp, hq, m1SetAge30]

theorem m2_q3_age (db : M2DB) (t : Bool) (k : Nat) :
    (Model2.query_q3 db t).db.persons[k]?.map M2Person.age
      = db.persons[k]?.map (fun p => if m2Qual p then (30 : Int) else p.age) := by
  have hc : (Model2.query_q3 db t).db.persons
      = db.persons.map (fun p => if m2Qual p then m2SetAge30 p else p) := rfl
  rw [hc, List.getElem?_map, Option.map_map]
  cases db.persons[k]? with
  | none => rfl
  | some p =>
    by_cases hq : m2Qual p <;> simp [Function.comp, hq, m2SetAge30]

theorem m1_q3_qual_pres (p : M1Person) :
    m1Qual (if m1Qual p then m1SetAge30 p else p) = m1Qual p := by
  by_cases hq : m1Qual p
  · rw [if_pos hq]
    rfl
  · rw [if_neg hq]

theorem m2_q3_qual_pres (p : M2Person) :
    m2Qual (if m2Qual p then m2SetAge30 p else p) = m2Qual p := by
  by_cases hq : m2Qual p
  · rw [if_pos hq]
    rfl
  · rw [if_neg hq]

theorem m3_q3_qual_pres (p : M3Person) :
    m3Qual (if m3Qual p then m3SetAge30 p else p) = m3Qual p := by
  by_cases hq : m3Qual p
  · rw [if_pos hq]
    rfl
  · rw [if_neg hq]

theorem m3_q3_docmatch_pres (c : M3Company) :
    m3DocMatch (if m3DocMatch c then m3Q3Update c else c) = m3DocMatch c := by
  by_cases hm : m3DocMatch c
  · rw [if_pos hm, hm]
    have hm2 := hm
    rw [show m3DocMatch c = c.persons.any m3Qual from rfl, List.any_eq_true] at hm2
    obtain ⟨p, hp, hq⟩ := hm2
    show (c.persons.map (fun p => if m3Qual p then m3SetAge30 p else p)).any m3Qual = true
    rw [List.any_map, List.any_eq_true]
    refine ⟨p, hp, ?_⟩
    show m3Qual (if m3Qual p then m3SetAge30 p else p) = true
    rw [m3_q3_qual_pres p]
    exact hq
  · rw [if_neg hm]

theorem m1_q3_rerun (db : M1DB) (t t2 : Bool) :
    (Model1.query_q3 (Model1.query_q3 db t).db t2).matched = (Model1.query_q3 db t).matched
    ∧ (Model1.query_q3 (Model1.query_q3 db t).db t2).modified = 0 := by
  constructor
  · show ((db.persons.map _).filter m1Qual).length = (db.persons.filter m1Qual).length
    rw [List.filter_map, List.length_map]
    congr 1
    apply List.filter_congr
    intro p _
    exact m1_q3_qual_pres p
  · rw [m1_q3_modified]
    show ((db.persons.map _).filter _).length = 0
    rw [List.filter_map, List.length_map]
    rw [List.filter_eq_nil_iff.mpr ?_]
    · rfl
    · intro p _
      simp only [Function.comp]
      have hqp : m1Qual (m1SetAge30 p) = m1Qual p := rfl
      by_cases hq : m1Qual p
      · simp [hq, hqp, m1SetAge30]
      · simp [hq]

theorem m2_q3_rerun (db : M2DB) (t t2 : Bool) :
    (Model2.query_q3 (Model2.query_q3 db t).db t2).matched = (Model2.query_q3 db t).matched
    ∧ (Model2.query_q3 (Model2.query_q3 db t).db t2).modified = 0 := by
  constructor
  · show ((db.persons.map _).filter m2Qual).length = (db.persons.filter m2Qual).length
    rw [List.filter_map, List.length_map]
    congr 1
    apply List.filter_congr
    intro p _
    exact m2_q3_qual_pres p
  · rw [m2_q3_modified]
    show ((db.persons.map _).filter _).length = 0
    rw [List.filter_map, List.length_map]
    rw [List.filter_eq_nil_iff.mpr ?_]
    · rfl
    · intro p _
      simp only [Function.comp]
      have hqp : m2Qual (m2SetAge30 p) = m2Qual p := rfl
      by_cases hq : m2Qual p
      · simp [hq, hqp, m2SetAge30]
      · simp [hq]

theorem m3_q3_rerun (db : M3DB) (t t2 : Bool) :
    (Model3.query_q3 (Model3.query_q3 db t).db t2).matched = (Model3.query_q3 db t).matched
    ∧ (Model3.query_q3 (Model3.query_q3 db t).db t2).modified = 0 := by
  constructor
  · show ((db.companies.map _).filter m3DocMatch).length
        = (db.companies.filter m3DocMatch).length
    rw [List.filter_map, List.length_map]
    congr 1
    apply List.filter_congr
    intro c _
    exact m3_q3_docmatch_pres c
  · rw [m3_q3_modified]
    show ((db.companies.map _).filter _).length = 0
    rw [List.filter_map, List.length_map]
    rw [List.filter_eq_nil_iff.mpr ?_]
    · rfl
    · intro c _
      simp only [Function.comp, Bool.and_eq_true, not_and]
      intro _
      simp only [Bool.not_eq_true]
      rw [List.any_eq_false]
      intro q hq
      by_cases hm : m3DocMatch c
      · rw [if_pos hm] at hq
        rw [m3Q3Update] at hq
        obtain ⟨p0, hp0, rfl⟩ := List.mem_map.mp hq
        have hqp : m3Qual (m3SetAge30 p0) = m3Qual p0 := rfl
        by_cases hq0 : m3Qual p0
        · simp [hq0, hqp, m3SetAge30]
        · simp [hq0]
      · rw [if_neg hm] at hq
        have hqf : m3Qual q = false := by
          by_contra hx
          simp only [Bool.not_eq_false] at hx
          exact hm (List.any_eq_true.mpr ⟨q, hq, hx⟩)
        simp [hqf]

/-- Claim C4 (amended): for M1 and M2, Q3's matched count is the number of
persons with `dateOfBirth` lexicographically below "1988-01-01" and its
modified count is the number of such persons whose age differs from 30; for
M3 the counts are over company documents (matched: companies containing a
qualifying person; modified: companies containing a qualifying person whose
age differs from 30).  After Q3, every qualifying person's age equals 30
(others keep theirs).  Running Q3 again yields the same matched count but
modified count 0 (the `$set` writes the value already present, which MongoDB
does not count as a modification). -/
theorem claim_C4 (db1 : M1DB) (db2 : M2DB) (db3 : M3DB) (t t2 : Bool) :
    (Model1.query_q3 db1 t).matched = (db1.persons.filter m1Qual).length
  ∧ (Model1.query_q3 db1 t).modified
      = (db1.persons.filter (fun p => m1Qual p && decide (p.age ≠ 30))).length
  ∧ (∀ k : Nat, (Model1.query_q3 db1 t).db.persons[k]?.map M1Person.age
      = db1.persons[k]?.map (fun p => if m1Qual p then (30 : Int) else p.age))
  ∧ (Model1.query_q3 (Model1.query_q3 db1 t).db t2).matched = (Model1.query_q3 db1 t).matched
  ∧ (Model1.query_q3 (Model1.query_q3 db1 t).db t2).modified = 0
  ∧ (Model2.query_q3 db2 t).matched = (db2.persons.filter m2Qual).length
  ∧ (Model2.query_q3 db2 t).modified
      = (db2.persons.filter (fun p => m2Qual p && decide (p.age ≠ 30))).length
  ∧ (∀ k : Nat, (Model2.query_q3 db2 t).db.persons[k]?.map M2Person.age
      = db2.persons[k]?.map (fun p => if m2Qual p then (30 : Int) else p.age))
  ∧ (Model2.query_q3 (Model2.query_q3 db2 t).db t2).matched = (Model2.query_q3 db2 t).matched
  ∧ (Model2.query_q3 (Model2.query_q3 db2 t).db t2).modified = 0
  ∧ (Model3.query_q3 db3 t).matched = (db3.companies.filter m3DocMatch).length
  ∧ (Model3.query_q3 db3 t).modified
      = (db3.companies.filter (fun c => m3DocMatch c
          && c.persons.any (fun p => m3Qual p && decide (p.age ≠ 30)))).length
  ∧ (∀ i j : Nat,
      ((Model3.query_q3 db3 t).db.companies[i]?.bind (fun c => c.persons[j]?)).map M3Person.age
      = (db3.companies[i]?.bind (fun c => c.persons[j]?)).map
          (fun p => if m3Qual p then (30 : Int) else p.age))
  ∧ (Model3.query_q3 (Model3.query_q3 db3 t).db t2).matched = (Model3.query_q3 db3 t).matched
  ∧ (Model3.query_q3 (Model3.query_q3 db3 t).db t2).modified = 0 := by
  refine ⟨rfl, m1_q3_modified db1 t, fun k => m1_q3_age db1 t k,
    (m1_q3_rerun db1 t t2).1, (m1_q3_rerun db1 t t2).2,
    rfl, m2_q3_modified db2 t, fun k => m2_q3_age db2 t k,
    (m2_q3_rerun db2 t t2).1, (m2_q3_rerun db2 t t2).2,
    rfl, m3_q3_modified db3 t, fun i j => ?_,
    (m3_q3_rerun db3 t t2).1, (m3_q3_rerun db3 t t2).2⟩
  rw [m3_q3_person_update, Option.map_map]
  cases db3.companies[i]?.bind (fun c => c.persons[j]?) with
  | none => rfl
  | some p =>
    by_cases hq : m3Qual p <;> simp [Function.comp, hq, m3SetAge30]

/-- Claim C4 counterexample: on an M3 database with one company containing
two persons born before 1988 (ages 45 and 55) and one born after, the first
Q3 run reports matched = modified = 1 (company documents, not the 2
qualifying persons), and a second run still matches 1 but modifies 0 - so
neither "matched count equals the number of qualifying persons" nor "a
second run yields the same modified count" holds as stated. -/
theorem claim_C4_counterexample :
    ((exM3db.companies.flatMap M3Company.persons).filter m3Qual).length = 2
  ∧ (Model3.query_q3 exM3db true).matched = 1
  ∧ (Model3.query_q3 exM3db true).matched
      ≠ ((exM3db.companies.flatMap M3Company.persons).filter m3Qual).length
  ∧ (Model3.query_q3 exM3db true).modified = 1
  ∧ (Model3.query_q3 (Model3.query_q3 exM3db true).db true).matched = 1
  ∧ (Model3.query_q3 (Model3.query_q3 exM3db true).db true).modified = 0
  ∧ (Model3.query_q3 (Model3.query_q3 exM3db true).db true).modified
      ≠ (Model3.query_q3 exM3db true).modified := by
  refine ⟨rfl, rfl, by decide, rfl, rfl, rfl, by decide⟩

theorem runConnSteps_body (ok : Nat → Bool) :
    ∀ (k j : Nat),
      runConnSteps ok (List.replicate k OpStep.storeOp ++ [OpStep.close]) j true
          = (false, false)
      ∨ runConnSteps ok (List.replicate k OpStep.storeOp ++ [OpStep.close]) j true
          = (true, true) := by
  intro k
  induction k with
  | zero =>
    intro j
    left
    rfl
  | succ n ih =>
    intro j
    rw [List.replicate_succ, List.cons_append]
    by_cases hok : ok j
    · have : runConnSteps ok (OpStep.storeOp :: (List.replicate n OpStep.storeOp ++ [OpStep.close])) j true
          = runConnSteps ok (List.replicate n OpStep.storeOp ++ [OpStep.close]) (j + 1) true := by
        simp [runConnSteps, hok]
      rw [this]
      exact ih (j + 1)
    · right
      simp [runConnSteps, hok]

theorem opBody_run (k : Nat) (ok : Nat → Bool) :
    runConnSteps ok (opBody k) 0 false = (false, false)
    ∨ runConnSteps ok (opBody k) 0 false = (true, true) := by
  have : runConnSteps ok (opBody k) 0 false
      = runConnSteps ok (List.replicate k OpStep.storeOp ++ [OpStep.close]) 0 true := rfl
  rw [this]
  exact runConnSteps_body ok k 0

/-- Claim C8 (amended): every operation's body has the shape connect, store
calls, close, with no `try`/`finally`; when no store call fails the
connection is closed before returning, but when a store-level failure is
raised the exception propagates with the connection still open (the `close()`
at the end of the method body is skipped). -/
theorem claim_C8 (k n : Nat) (ok : Nat → Bool) :
    ((runConnSteps ok (opBody k) 0 false).2 = false
      → (runConnSteps ok (opBody k) 0 false).1 = false)
  ∧ ((runConnSteps ok (opBody k) 0 false).2 = true
      → (runConnSteps ok (opBody k) 0 false).1 = true)
  ∧ m1_data_generator_steps n = opBody (4 + (n / 500) + (n - n / 500))
  ∧ m2_query_q1_steps = opBody 1
  ∧ m3_query_q3_steps = opBody 1 := by
  refine ⟨?_, ?_, rfl, rfl, rfl⟩
  · intro h
    rcases opBody_run k ok with hr | hr
    · rw [hr]
    · rw [hr] at h
      exact absurd h (by decide)
  · intro h
    rcases opBody_run k ok with hr | hr
    · rw [hr] at h
      exact absurd h (by decide)
    · rw [hr]

/-- Witness for C8's amended claim: a failure-free run of `Model2.query_q1`'s
body leaves the connection closed. -/
theorem claim_C8_witness :
    (runConnSteps (fun _ => true) (opBody 1) 0 false).1 = false :=
  (claim_C8 1 1000 (fun _ => true)).1 rfl

/-- Claim C8 counterexample: if the single store call of `Model2.query_q1`
raises, the method body never reaches `client.close()` - the connection is
NOT closed before the exception returns to the caller, refuting "the
connection is always closed on every path, including failures". -/
theorem claim_C8_counterexample :
    ¬ (∀ ok : Nat → Bool, (runConnSteps ok m2_query_q1_steps 0 false).1 = false) := by
  intro h
  have h2 := h (fun _ => false)
  have h3 : (runConnSteps (fun _ => false) m2_query_q1_steps 0 false).1 = true := rfl
  rw [h3] at h2
  exact absurd h2 (by decide)

/-- Claim C9: whenever `n // 500 = 0` (entity count below one company), the
loaders hit a division or modulo by zero rather than a checked validation
error: M3's `persons_per_company = n_persons // n_companies` raises
`ZeroDivisionError` unconditionally, and M1/M2 raise it at the first
person's `i % n_companies` as soon as at least one person is generated. -/
theorem claim_C9 (n : Nat) (fake : Fixture) (t : Bool) (h : n / 500 = 0) :
    Model3.data_generator n fake t = .error .zeroDivision
    ∧ (1 ≤ n → Model1.data_generator n fake t = .error .zeroDivision)
    ∧ (1 ≤ n → Model2.data_generator n fake t = .error .zeroDivision) :=
  ⟨m3_gen_zero n fake t h,
   fun h1 => m1_gen_zero n fake t h h1,
   fun h1 => m2_gen_zero n fake t h h1⟩

/-- Witness for C9 at `n = 3`: `3 // 500 = 0` and all three loaders raise
`ZeroDivisionError`. -/
theorem claim_C9_witness :
    (3 / 500 = 0)
    ∧ (Model3.data_generator 3 constFixture true = .error .zeroDivision
        ∧ (1 ≤ 3 → Model1.data_generator 3 constFixture true = .error .zeroDivision)
        ∧ (1 ≤ 3 → Model2.data_generator 3 constFixture true = .error .zeroDivision)) :=
  ⟨by decide, claim_C9 3 constFixture true (by decide)⟩

theorem genLoop_out_nil {β : Type} (g : Nat → Except PyErr β) (l : List Nat) :
    ∀ (a : List β) (o : List String) (res : List β × List String),
      genLoop g (fun _ => ([] : List String)) l (a, o) = .ok res → res.2 = o := by
  induction l with
  | nil =>
    intro a o res h
    simp only [genLoop] at h
    cases h
    rfl
  | cons i rest ih =>
    intro a o res h
    simp only [genLoop] at h
    cases hg : g i with
    | error e =>
      rw [hg] at h
      cases h
    | ok p =>
      rw [hg] at h
      have h2 := ih (a ++ [p]) (o ++ []) res h
      simpa using h2

theorem m1_gen_flag_db (n : Nat) (fake : Fixture) :
    (Model1.data_generator n fake true).map GenOut.db
      = (Model1.data_generator n fake false).map GenOut.db := by
  by_cases h : 0 < n / 500
  · rw [m1_gen_db n fake true h, m1_gen_db n fake false h]
  · have h0 : n / 500 = 0 := by omega
    by_cases h1 : 1 ≤ n
    · rw [m1_gen_zero n fake true h0 h1, m1_gen_zero n fake false h0 h1]
    · have hn : n = 0 := by omega
      subst hn
      rfl

theorem m2_gen_flag_db (n : Nat) (fake : Fixture) :
    (Model2.data_generator n fake true).map GenOut.db
      = (Model2.data_generator n fake false).map GenOut.db := by
  by_cases h : 0 < n / 500
  · rw [m2_gen_db n fake true h, m2_gen_db n fake false h]
  · have h0 : n / 500 = 0 := by omega
    by_cases h1 : 1 ≤ n
    · rw [m2_gen_zero n fake true h0 h1, m2_gen_zero n fake false h0 h1]
    · have hn : n = 0 := by omega
      subst hn
      rfl

theorem m3_gen_flag_db (n : Nat) (fake : Fixture) :
    (Model3.data_generator n fake true).map GenOut.db
      = (Model3.data_generator n fake false).map GenOut.db := by
  by_cases h : 0 < n / 500
  · rw [m3_gen_db n fake true h, m3_gen_db n fake false h]
  · have h0 : n / 500 = 0 := by omega
    rw [m3_gen_zero n fake true h0, m3_gen_zero n fake false h0]

theorem m1_gen_out_suppressed (n : Nat) (fake : Fixture) (g : GenOut M1DB)
    (h : Model1.data_generator n fake true = .ok g) : g.out = [] := by
  simp only [Model1.data_generator] at h
  obtain ⟨acc, hacc, hF⟩ := except_map_eq_ok h
  have h2 := genLoop_out_nil (m1PersonStep fake (List.range (n / 500)) (n / 500))
    (List.range (n - n / 500)) [] [] acc hacc
  rw [← hF]
  exact h2

theorem m2_gen_out_suppressed (n : Nat) (fake : Fixture) (g : GenOut M2DB)
    (h : Model2.data_generator n fake true = .ok g) : g.out = [] := by
  simp only [Model2.data_generator] at h
  obtain ⟨acc, hacc, hF⟩ := except_map_eq_ok h
  have h2 := genLoop_out_nil (m2PersonStep fake ((List.range (n / 500)).map fake.companyAt)
    (n / 500)) (List.range (n - n / 500)) [] [] acc hacc
  rw [← hF]
  exact h2

theorem m3_gen_out_suppressed (n : Nat) (fake : Fixture) (g : GenOut M3DB)
    (h : Model3.data_generator n fake true = .ok g) : g.out = [] := by
  simp only [Model3.data_generator] at h
  obtain ⟨ppc, hppc, hF⟩ := except_map_eq_ok h
  rw [← hF]
  rfl

/-- Claim C10: for every model and every operation, the `only_timing` flag
does not interfere with the database state, the query result sets, or the
matched/modified counts - the two runs agree on all of those - and with the
flag set the suppressible console output (per-document progress, result
previews, matched/modified report) is empty. -/
theorem claim_C10 (n : Nat) (fake : Fixture) (db1 : M1DB) (db2 : M2DB) (db3 : M3DB) :
    (Model1.data_generator n fake true).map GenOut.db
      = (Model1.data_generator n fake false).map GenOut.db
  ∧ (Model2.data_generator n fake true).map GenOut.db
      = (Model2.data_generator n fake false).map GenOut.db
  ∧ (Model3.data_generator n fake true).map GenOut.db
      = (Model3.data_generator n fake false).map GenOut.db
  ∧ (∀ g, Model1.data_generator n fake true = .ok g → g.out = [])
  ∧ (∀ g, Model2.data_generator n fake true = .ok g → g.out = [])
  ∧ (∀ g, Model3.data_generator n fake true = .ok g → g.out = [])
  ∧ (Model1.query_q1 db1 true).rows = (Model1.query_q1 db1 false).rows
  ∧ (Model1.query_q1 db1 true).printed = []
  ∧ (Model1.query_q2 db1 true).rows = (Model1.query_q2 db1 false).rows
  ∧ (Model1.query_q2 db1 true).printed = []
  ∧ (Model1.query_q3 db1 true).db = (Model1.query_q3 db1 false).db
  ∧ (Model1.query_q3 db1 true).matched = (Model1.query_q3 db1 false).matched
  ∧ (Model1.query_q3 db1 true).modified = (Model1.query_q3 db1 false).modified
  ∧ (Model1.query_q3 db1 true).printed = []
  ∧ (Model1.query_q4 db1 true).db = (Model1.query_q4 db1 false).db
  ∧ (Model1.query_q4 db1 true).matched = (Model1.query_q4 db1 false).matched
  ∧ (Model1.query_q4 db1 true).modified = (Model1.query_q4 db1 false).modified
  ∧ (Model1.query_q4 db1 true).printed = []
  ∧ (Model2.query_q1 db2 true).rows = (Model2.query_q1 db2 false).rows
  ∧ (Model2.query_q1 db2 true).printed = []
  ∧ (Model2.query_q2 db2 true).rows = (Model2.query_q2 db2 false).rows
  ∧ (Model2.query_q2 db2 true).printed = []
  ∧ (Model2.query_q3 db2 true).db = (Model2.query_q3 db2 false).db
  ∧ (Model2.query_q3 db2 true).matched = (Model2.query_q3 db2 false).matched
  ∧ (Model2.query_q3 db2 true).modified = (Model2.query_q3 db2 false).modified
  ∧ (Model2.query_q3 db2 true).printed = []
  ∧ (Model2.query_q4 db2 true).db = (Model2.query_q4 db2 false).db
  ∧ (Model2.query_q4 db2 true).matched = (Model2.query_q4 db2 false).matched
  ∧ (Model2.query_q4 db2 true).modified = (Model2.query_q4 db2 false).modified
  ∧ (Model2.query_q4 db2 true).printed = []
  ∧ (Model3.query_q1 db3 true).rows = (Model3.query_q1 db3 false).rows
  ∧ (Model3.query_q1 db3 true).printed = []
  ∧ (Model3.query_q2 db3 true).rows = (Model3.query_q2 db3 false).rows
  ∧ (Model3.query_q2 db3 true).printed = []
  ∧ (Model3.query_q3 db3 true).db = (Model3.query_q3 db3 false).db
  ∧ (Model3.query_q3 db3 true).matched = (Model3.query_q3 db3 false).matched
  ∧ (Model3.query_q3 db3 true).modified = (Model3.query_q3 db3 false).modified
  ∧ (Model3.query_q3 db3 true).printed = []
  ∧ (Model3.query_q4 db3 true).db = (Model3.query_q4 db3 false).db
  ∧ (Model3.query_q4 db3 true).matched = (Model3.query_q4 db3 false).matched
  ∧ (Model3.query_q4 db3 true).modified = (Model3.query_q4 db3 false).modified
  ∧ (Model3.query_q4 db3 true).printed = [] :=
  ⟨m1_gen_flag_db n fake, m2_gen_flag_db n fake, m3_gen_flag_db n fake,
   fun g h => m1_gen_out_suppressed n fake g h,
   fun g h => m2_gen_out_suppressed n fake g h,
   fun g h => m3_gen_out_suppressed n fake g h,
   rfl, rfl, rfl, rfl, rfl, rfl, rfl, rfl, rfl, rfl, rfl, rfl,
   rfl, rfl, rfl, rfl, rfl, rfl, rfl, rfl, rfl, rfl, rfl, rfl,
   rfl, rfl, rfl, rfl, rfl, rfl, rfl, rfl, rfl, rfl, rfl, rfl⟩

/-- Witness for C10: the generator-output suppression clause applied at
`n = 0` (where generation trivially succeeds with an empty state). -/
theorem claim_C10_witness :
    ({ db := { companies := [], persons := [] }, out := [] } : GenOut M1DB).out = [] :=
  (claim_C10 0 constFixture exM1db exM2db exM3db).2.2.2.1
    { db := { companies := [], persons := [] }, out := [] } rfl

theorem m3TotalStaff_gen (n : Nat) (fake : Fixture) :
    m3TotalStaff { companies := m3GenCompanies n fake }
      = (n / 500) * ((n - n / 500) / (n / 500)) := by
  unfold m3TotalStaff m3GenCompanies
  rw [List.map_map]
  have hlen : ((fun c => c.persons.length) ∘ mkM3Company fake ((n - n / 500) / (n / 500)))
      = fun _ => ((n - n / 500) / (n / 500)) := by
    funext i
    simp [Function.comp, mkM3Company]
  rw [hlen, List.map_const', List.length_range, List.sum_replicate, smul_eq_mul]

theorem assignedCount_diff (np nc c1 c2 : Nat) (h : 0 < nc) (h1 : c1 < nc) (h2 : c2 < nc) :
    assignedCount np nc c1 ≤ assignedCount np nc c2 + 1 := by
  rw [assignedCount_eq np nc c1 h h1, assignedCount_eq np nc c2 h h2]
  split_ifs <;> omega

theorem m1CompanyCount_gen (n : Nat) (fake : Fixture) (c : Nat) :
    m1CompanyCount { companies := m1GenCompanies n fake, persons := m1GenPersons n fake } c
      = assignedCount (n - n / 500) (n / 500) c := by
  unfold m1CompanyCount m1GenPersons assignedCount
  rw [List.filter_map, List.length_map]
  rfl

theorem m2CompanyCount_gen (n : Nat) (fake : Fixture) (c : Nat)
    (hinj : Function.Injective fake.companyAt) :
    m2CompanyCount { persons := m2GenPersons n fake } (fake.companyAt c)
      = assignedCount (n - n / 500) (n / 500) c := by
  unfold m2CompanyCount m2GenPersons assignedCount
  rw [List.filter_map, List.length_map]
  congr 1
  apply List.filter_congr
  intro i _
  simp only [Function.comp]
  rw [Bool.eq_iff_iff, decide_eq_true_eq, beq_iff_eq]
  constructor
  · intro he
    exact hinj he
  · intro he
    show fake.companyAt (i % (n / 500)) = fake.companyAt c
    rw [he]

theorem m1_gen_company_at (n : Nat) (fake : Fixture) (i : Nat) :
    (m1GenPersons n fake)[i]?.map M1Person.company
      = (List.range (n - n / 500))[i]?.map (fun i2 => i2 % (n / 500)) := by
  unfold m1GenPersons
  rw [List.getElem?_map, Option.map_map]
  rfl

theorem m2_gen_company_at (n : Nat) (fake : Fixture) (i : Nat) :
    (m2GenPersons n fake)[i]?.map M2Person.company
      = (List.range (n - n / 500))[i]?.map (fun i2 => fake.companyAt (i2 % (n / 500))) := by
  unfold m2GenPersons
  rw [List.getElem?_map, Option.map_map]
  rfl

theorem m3_gen_staff_len (n : Nat) (fake : Fixture) :
    ∀ c ∈ m3GenCompanies n fake, c.persons.length = (n - n / 500) / (n / 500) := by
  intro c hc
  unfold m3GenCompanies at hc
  obtain ⟨i, hi, rfl⟩ := List.mem_map.mp hc
  simp [mkM3Company]

/-- Claim C6: for every `n ≥ 1000` and every model, generation succeeds with
`company_count = n // 500` companies and `person_count = n - company_count`
persons (M1 stores both collections, M2 stores `person_count` person
documents), while M3 stores exactly `company_count * (person_count //
company_count)` embedded person sub-documents (the truncated total). -/
theorem claim_C6 (n : Nat) (fake : Fixture) (t : Bool) (h : 1000 ≤ n) :
    ∃ g1 g2 g3,
      Model1.data_generator n fake t = .ok g1
      ∧ Model2.data_generator n fake t = .ok g2
      ∧ Model3.data_generator n fake t = .ok g3
      ∧ g1.db.companies.length = n / 500
      ∧ g1.db.persons.length = n - n / 500
      ∧ g2.db.persons.length = n - n / 500
      ∧ g3.db.companies.length = n / 500
      ∧ m3TotalStaff g3.db = (n / 500) * ((n - n / 500) / (n / 500)) := by
  have h5 : 0 < n / 500 := by omega
  obtain ⟨g1, hg1, hd1⟩ := except_map_eq_ok (m1_gen_db n fake t h5)
  obtain ⟨g2, hg2, hd2⟩ := except_map_eq_ok (m2_gen_db n fake t h5)
  obtain ⟨g3, hg3, hd3⟩ := except_map_eq_ok (m3_gen_db n fake t h5)
  refine ⟨g1, g2, g3, hg1, hg2, hg3, ?_, ?_, ?_, ?_, ?_⟩
  · rw [hd1]
    simp [m1GenCompanies]
  · rw [hd1]
    simp [m1GenPersons]
  · rw [hd2]
    simp [m2GenPersons]
  · rw [hd3]
    simp [m3GenCompanies]
  · rw [hd3]
    exact m3TotalStaff_gen n fake

/-- Witness for C6 at `n = 1000` (`company_count = 2`, `person_count = 998`,
`persons_per_company = 499`). -/
theorem claim_C6_witness :
    (1000 ≤ 1000)
    ∧ ∃ g1 g2 g3,
      Model1.data_generator 1000 constFixture true = .ok g1
      ∧ Model2.data_generator 1000 constFixture true = .ok g2
      ∧ Model3.data_generator 1000 constFixture true = .ok g3
      ∧ g1.db.companies.length = 1000 / 500
      ∧ g1.db.persons.length = 1000 - 1000 / 500
      ∧ g2.db.persons.length = 1000 - 1000 / 500
      ∧ g3.db.companies.length = 1000 / 500
      ∧ m3TotalStaff g3.db = (1000 / 500) * ((1000 - 1000 / 500) / (1000 / 500)) :=
  ⟨by decide, claim_C6 1000 constFixture true (by decide)⟩

/-- Claim C7: after generation, M1 and M2 assign the i-th person to company
`i % company_count` (round-robin), so per-company employee counts differ by
at most 1 (for M2: counting embedded copies, provided the fixture produces
distinct company values); M3 instead gives every company exactly
`person_count // company_count` embedded persons, dropping the remainder
`person_count % company_count` persons entirely. -/
theorem claim_C7 (n : Nat) (fake : Fixture) (t : Bool) (h : 1000 ≤ n) :
    ∃ g1 g2 g3,
      Model1.data_generator n fake t = .ok g1
      ∧ Model2.data_generator n fake t = .ok g2
      ∧ Model3.data_generator n fake t = .ok g3
      ∧ (∀ i : Nat, g1.db.persons[i]?.map M1Person.company
          = (List.range (n - n / 500))[i]?.map (fun i2 => i2 % (n / 500)))
      ∧ (∀ i : Nat, g2.db.persons[i]?.map M2Person.company
          = (List.range (n - n / 500))[i]?.map (fun i2 => fake.companyAt (i2 % (n / 500))))
      ∧ (∀ c : Nat, c < n / 500 →
          m1CompanyCount g1.db c = assignedCount (n - n / 500) (n / 500) c)
      ∧ (∀ c1 c2 : Nat, c1 < n / 500 → c2 < n / 500 →
          m1CompanyCount g1.db c1 ≤ m1CompanyCount g1.db c2 + 1)
      ∧ (Function.Injective fake.companyAt → ∀ c1 c2 : Nat, c1 < n / 500 → c2 < n / 500 →
          m2CompanyCount g2.db (fake.companyAt c1)
            ≤ m2CompanyCount g2.db (fake.companyAt c2) + 1)
      ∧ (∀ c ∈ g3.db.companies, c.persons.length = (n - n / 500) / (n / 500))
      ∧ m3TotalStaff g3.db = (n - n / 500) - (n - n / 500) % (n / 500) := by
  have h5 : 0 < n / 500 := by omega
  obtain ⟨g1, hg1, hd1⟩ := except_map_eq_ok (m1_gen_db n fake t h5)
  obtain ⟨g2, hg2, hd2⟩ := except_map_eq_ok (m2_gen_db n fake t h5)
  obtain ⟨g3, hg3, hd3⟩ := except_map_eq_ok (m3_gen_db n fake t h5)
  refine ⟨g1, g2, g3, hg1, hg2, hg3, ?_, ?_, ?_, ?_, ?_, ?_, ?_⟩
  · intro i
    rw [hd1]
    exact m1_gen_company_at n fake i
  · intro i
    rw [hd2]
    exact m2_gen_company_at n fake i
  · intro c _
    rw [hd1]
    exact m1CompanyCount_gen n fake c
  · intro c1 c2 hc1 hc2
    rw [hd1, m1CompanyCount_gen n fake c1, m1CompanyCount_gen n fake c2]
    exact assignedCount_diff _ _ c1 c2 h5 hc1 hc2
  · intro hinj c1 c2 hc1 hc2
    rw [hd2, m2CompanyCount_gen n fake c1 hinj, m2CompanyCount_gen n fake c2 hinj]
    exact assignedCount_diff _ _ c1 c2 h5 hc1 hc2
  · rw [hd3]
    exact m3_gen_staff_len n fake
  · rw [hd3, m3TotalStaff_gen n fake]
    have hdm := Nat.div_add_mod (n - n / 500) (n / 500)
    omega

/-- Witness for C7 at `n = 1000`. -/
theorem claim_C7_witness :
    (1000 ≤ 1000)
    ∧ ∃ g1 g2 g3,
      Model1.data_generator 1000 constFixture true = .ok g1
      ∧ Model2.data_generator 1000 constFixture true = .ok g2
      ∧ Model3.data_generator 1000 constFixture true = .ok g3
      ∧ (∀ i : Nat, g1.db.persons[i]?.map M1Person.company
          = (List.range (1000 - 1000 / 500))[i]?.map (fun i2 => i2 % (1000 / 500)))
      ∧ (∀ i : Nat, g2.db.persons[i]?.map M2Person.company
          = (List.range (1000 - 1000 / 500))[i]?.map
              (fun i2 => constFixture.companyAt (i2 % (1000 / 500))))
      ∧ (∀ c : Nat, c < 1000 / 500 →
          m1CompanyCount g1.db c = assignedCount (1000 - 1000 / 500) (1000 / 500) c)
      ∧ (∀ c1 c2 : Nat, c1 < 1000 / 500 → c2 < 1000 / 500 →
          m1CompanyCount g1.db c1 ≤ m1CompanyCount g1.db c2 + 1)
      ∧ (Function.Injective constFixture.companyAt →
          ∀ c1 c2 : Nat, c1 < 1000 / 500 → c2 < 1000 / 500 →
          m2CompanyCount g2.db (constFixture.companyAt c1)
            ≤ m2CompanyCount g2.db (constFixture.companyAt c2) + 1)
      ∧ (∀ c ∈ g3.db.companies, c.persons.length = (1000 - 1000 / 500) / (1000 / 500))
      ∧ m3TotalStaff g3.db = (1000 - 1000 / 500) - (1000 - 1000 / 500) % (1000 / 500) :=
  ⟨by decide, claim_C7 1000 constFixture true (by decide)⟩

/-- Claim C2 (amended): for M1 and M3, Q2 returns exactly one row per stored
Company document - including companies with zero employees, which appear
with count 0 - and the count is exact: M1's rows are
`{companyName, employeeCount}` pairs with `employeeCount` the number of
stored persons referencing that company's ObjectId (via the reverse
`$lookup`), while M3's rows carry the same data under the field names
`{name, num_employees}` (its `$project` keeps `name` and computes
`num_employees = $size persons`). -/
theorem claim_C2 (db1 : M1DB) (db3 : M3DB) (t : Bool) :
    (Model1.query_q2 db1 t).rows.length = db1.companies.length
  ∧ (∀ k : Nat, (Model1.query_q2 db1 t).rows[k]?
      = db1.companies[k]?.map (fun c =>
          [("companyName", Val.str c.2.name),
           ("employeeCount", Val.int (m1CompanyCount db1 c.1 : Nat))]))
  ∧ (∀ k : Nat, ∀ c : Nat × Company, db1.companies[k]? = some c →
      (∀ p ∈ db1.persons, p.company ≠ c.1) →
      (Model1.query_q2 db1 t).rows[k]?
        = some [("companyName", Val.str c.2.name), ("employeeCount", Val.int 0)])
  ∧ (Model3.query_q2 db3 t).rows.length = db3.companies.length
  ∧ (∀ k : Nat, (Model3.query_q2 db3 t).rows[k]?
      = db3.companies[k]?.map (fun c =>
          [("name", Val.str c.name),
           ("num_employees", Val.int (c.persons.length : Nat))])) := by
  refine ⟨?_, ?_, ?_, ?_, ?_⟩
  · show (db1.companies.map _).length = _
    rw [List.length_map]
  · intro k
    show (db1.companies.map _)[k]? = _
    rw [List.getElem?_map]
    rfl
  · intro k c hk hno
    show (db1.companies.map _)[k]? = _
    rw [List.getElem?_map, hk]
    have h0 : db1.persons.filter (fun p => p.company == c.1) = [] :=
      List.filter_eq_nil_iff.mpr (fun p hp => by simp [hno p hp])
    simp [h0]
  · show (db3.companies.map _).length = _
    rw [List.length_map]
  · intro k
    show (db3.companies.map _)[k]? = _
    rw [List.getElem?_map]

/-- Witness for C2's zero-employee clause: an M1 database with one company
and no persons yields the row `{companyName: "Acme", employeeCount: 0}`. -/
theorem claim_C2_witness :
    (Model1.query_q2 { companies := [(0, exCompanyA)], persons := [] } true).rows[0]?
      = some [("companyName", Val.str "Acme"), ("employeeCount", Val.int 0)] :=
  (claim_C2 { companies := [(0, exCompanyA)], persons := [] } exM3db true).2.2.1 0
    (0, exCompanyA) rfl (by simp)

set_option maxRecDepth 8000 in
/-- Claim C2 counterexample: on the M3 database generated at `n = 1000`, the
Q2 rows are keyed `name` / `num_employees`, not the
`{companyName, employeeCount}` field names the claim asserts for M3. -/
theorem claim_C2_counterexample :
    ¬ (∀ d ∈ (Model3.query_q2 m3db1000 true).rows,
        docKeys d = ["companyName", "employeeCount"]) := by
  intro h
  have h1 : (Model3.query_q2 m3db1000 true).rows.head?
      = some [("name", Val.str "Acme"), ("num_employees", Val.int 499)] := rfl
  have h2 : [("name", Val.str "Acme"), ("num_employees", Val.int 499)]
      ∈ (Model3.query_q2 m3db1000 true).rows :=
    List.mem_of_mem_head? (Option.mem_def.mpr h1)
  exact absurd (h _ h2) (by decide)

theorem m1GenCompanies_filter (n : Nat) (fake : Fixture) (m : Nat) (hm : m < n / 500) :
    (m1GenCompanies n fake).filter (fun c => c.1 == m) = [(m, fake.companyAt m)] := by
  unfold m1GenCompanies
  rw [List.filter_map]
  have hcomp : ((fun c => c.1 == m) ∘ (fun k => ((k, fake.companyAt k) : Nat × Company)))
      = fun k => k == m := rfl
  rw [hcomp, range_filter_beq, if_pos hm]
  rfl

theorem m1_q1_rows_gen (n : Nat) (fake : Fixture) (t2 : Bool) (h : 0 < n / 500) :
    (Model1.query_q1 { companies := m1GenCompanies n fake
                       persons := m1GenPersons n fake } t2).rows
      = m1Q1ExpectedRows n fake := by
  show (m1GenPersons n fake).flatMap _ = _
  unfold m1GenPersons m1Q1ExpectedRows
  rw [List.flatMap_map]
  apply flatMap_eq_map_of_singleton
  intro i _
  have hlt : i % (n / 500) < n / 500 := Nat.mod_lt i h
  show ((m1GenCompanies n fake).filter (fun c => c.1 == i % (n / 500))).map _ = _
  rw [m1GenCompanies_filter n fake _ hlt]
  rfl

theorem m2_q1_rows_gen (n : Nat) (fake : Fixture) (t2 : Bool) :
    (Model2.query_q1 { persons := m2GenPersons n fake } t2).rows
      = m2Q1ExpectedRows n fake := by
  show (m2GenPersons n fake).enum.map _ = _
  unfold m2GenPersons m2Q1ExpectedRows
  rw [List.enum_map, List.map_map]
  have henum : (List.range (n - n / 500)).enum
      = (List.range (n - n / 500)).map (fun i => (i, i)) := by
    rw [List.enum_eq_zip_range, List.length_range]
    have hz := List.zip_map' (@id Nat) id (List.range (n - n / 500))
    simp only [List.map_id] at hz
    exact hz
  rw [henum, List.map_map]
  rfl

theorem m3_q1_rows_gen (n : Nat) (fake : Fixture) (t2 : Bool) :
    (Model3.query_q1 { companies := m3GenCompanies n fake } t2).rows
      = m3Q1ExpectedRows n fake := by
  show (m3GenCompanies n fake).flatMap _ = _
  unfold m3GenCompanies m3Q1ExpectedRows
  rw [List.flatMap_map]
  simp only [mkM3Company, List.map_map]
  rfl

theorem m3Q1ExpectedRows_length (n : Nat) (fake : Fixture) :
    (m3Q1ExpectedRows n fake).length = (n / 500) * ((n - n / 500) / (n / 500)) := by
  unfold m3Q1ExpectedRows
  rw [List.length_flatMap]
  simp only [Function.comp_def, List.length_map, List.length_range]
  rw [List.map_const', List.length_range, List.sum_replicate, smul_eq_mul]

/-- Claim C1 (amended): for every `n ≥ 1000`, after generation Q1 returns
exactly one record per stored person carrying the person's name data and
the correct (round-robin assigned) company's name, and the result-set size
equals the stored person population (`n - n//500` for M1/M2; the truncated
total `(n//500) * ((n - n//500) // (n//500))` for M3).  The record
shapes differ per model: M1 projects `{firstName, lastName, companyName}`
triples; M2's `find` inclusion projection keeps `_id` and the nested
`company.name`; M3 projects `{fullName, companyName}` with `fullName` the
"first last" concatenation instead of separate name fields. -/
theorem claim_C1 (n : Nat) (fake : Fixture) (t t2 : Bool) (h : 1000 ≤ n) :
    ∃ g1 g2 g3,
      Model1.data_generator n fake t = .ok g1
      ∧ Model2.data_generator n fake t = .ok g2
      ∧ Model3.data_generator n fake t = .ok g3
      ∧ (Model1.query_q1 g1.db t2).rows = m1Q1ExpectedRows n fake
      ∧ (Model1.query_q1 g1.db t2).rows.length = g1.db.persons.length
      ∧ g1.db.persons.length = n - n / 500
      ∧ (Model2.query_q1 g2.db t2).rows = m2Q1ExpectedRows n fake
      ∧ (Model2.query_q1 g2.db t2).rows.length = g2.db.persons.length
      ∧ g2.db.persons.length = n - n / 500
      ∧ (Model3.query_q1 g3.db t2).rows = m3Q1ExpectedRows n fake
      ∧ (Model3.query_q1 g3.db t2).rows.length = m3TotalStaff g3.db := by
  have h5 : 0 < n / 500 := by omega
  obtain ⟨g1, hg1, hd1⟩ := except_map_eq_ok (m1_gen_db n fake t h5)
  obtain ⟨g2, hg2, hd2⟩ := except_map_eq_ok (m2_gen_db n fake t h5)
  obtain ⟨g3, hg3, hd3⟩ := except_map_eq_ok (m3_gen_db n fake t h5)
  refine ⟨g1, g2, g3, hg1, hg2, hg3, ?_, ?_, ?_, ?_, ?_, ?_, ?_, ?_⟩
  · rw [hd1]
    exact m1_q1_rows_gen n fake t2 h5
  · rw [hd1, m1_q1_rows_gen n fake t2 h5]
    simp [m1Q1ExpectedRows, m1GenPersons]
  · rw [hd1]
    simp [m1GenPersons]
  · rw [hd2]
    exact m2_q1_rows_gen n fake t2
  · rw [hd2, m2_q1_rows_gen n fake t2]
    simp [m2Q1ExpectedRows, m2GenPersons]
  · rw [hd2]
    simp [m2GenPersons]
  · rw [hd3]
    exact m3_q1_rows_gen n fake t2
  · rw [hd3, m3_q1_rows_gen n fake t2, m3Q1ExpectedRows_length, m3TotalStaff_gen]

/-- Witness for C1 at `n = 1000`. -/
theorem claim_C1_witness :
    (1000 ≤ 1000)
    ∧ ∃ g1 g2 g3,
      Model1.data_generator 1000 constFixture true = .ok g1
      ∧ Model2.data_generator 1000 constFixture true = .ok g2
      ∧ Model3.data_generator 1000 constFixture true = .ok g3
      ∧ (Model1.query_q1 g1.db true).rows = m1Q1ExpectedRows 1000 constFixture
      ∧ (Model1.query_q1 g1.db true).rows.length = g1.db.persons.length
      ∧ g1.db.persons.length = 1000 - 1000 / 500
      ∧ (Model2.query_q1 g2.db true).rows = m2Q1ExpectedRows 1000 constFixture
      ∧ (Model2.query_q1 g2.db true).rows.length = g2.db.persons.length
      ∧ g2.db.persons.length = 1000 - 1000 / 500
      ∧ (Model3.query_q1 g3.db true).rows = m3Q1ExpectedRows 1000 constFixture
      ∧ (Model3.query_q1 g3.db true).rows.length = m3TotalStaff g3.db :=
  ⟨by decide, claim_C1 1000 constFixture true true (by decide)⟩

set_option maxRecDepth 8000 in
/-- Claim C1 counterexample: on the M3 database generated at `n = 1000`, the
Q1 result rows are `{fullName, companyName}` pairs - no record carries the
separate `firstName` / `lastName` fields the claim asserts, so Q1 does not
return `{firstName, lastName, companyName}` triples for every model. -/
theorem claim_C1_counterexample :
    ¬ (∀ d ∈ (Model3.query_q1 m3db1000 true).rows,
        docKeys d = ["firstName", "lastName", "companyName"]) := by
  intro h
  have h1 : (Model3.query_q1 m3db1000 true).rows.head?
      = some [("fullName", Val.str "Ann Lee"), ("companyName", Val.str "Acme")] := rfl
  have h2 : [("fullName", Val.str "Ann Lee"), ("companyName", Val.str "Acme")]
      ∈ (Model3.query_q1 m3db1000 true).rows :=
    List.mem_of_mem_head? (Option.mem_def.mpr h1)
  exact absurd (h _ h2) (by decide)

end MongoLab
